import Mathlib

/-!
# machine-controller-manager-provider-vsphere: `pkg/vsphere/internal/vmomi`

A shallow embedding of `vapp_helper.go`, `delete.go` and `flags/network.go`.

Conventions of the embedding.

* A Go `string` is a Lean `String`; a Go `[]string` is a `List String` (a nil
  slice and an empty slice are both `[]`, the source only ranges over them and
  takes their length).
* A Go result pair `(string, error)` is a Lean pair whose second component is
  an `Option GoError`; `none` is the nil error.  A result pair `(*T, error)` or
  `(interface, error)` is an `Except GoError T`: the source returns nil for
  the value exactly when it returns an error.
* The receiver of `ignitionFile` is a pointer and may be nil: it is an
  `Option ignitionConfig`.
* Remote calls of the vSphere client library are steps of an abstract remote
  system: a state type `σ` with one transition function per call.  Every call
  that is issued is appended, together with its outcome, to a transcript.
-/

namespace Vmomi

/-! ## Errors -/

/-- Error values that flow through the package. -/
inductive GoError where
  /-- `*flags.NotFoundError`, returned by the search flag when nothing matches. -/
  | notFound (msg : String)
  /-- `*errors2.MachineNotFoundError{Name, MachineID}`. -/
  | machineNotFound (Name MachineID : String)
  /-- `fmt.Errorf(msg)`. -/
  | errorf (msg : String)
  /-- `errors.Wrap(cause, msg)` and `errors.Wrapf(cause, format, ...)`. -/
  | wrap (cause : GoError) (msg : String)
  /-- Any other error value handed back by a library call. -/
  | library (msg : String)
  deriving DecidableEq, Repr

/-! ## Pieces of the Go standard library used by the package -/

/-- `strings.HasPrefix(s, pre)`. -/
def stringsHasPrefix (s pre : String) : Bool :=
  pre.data.isPrefixOf s.data

/-- Search loop of `strings.Index`: is `sub` a prefix of some suffix of the text. -/
def occursIn (sub : List Char) : List Char → Bool
  | [] => sub.isPrefixOf []
  | c :: rest => sub.isPrefixOf (c :: rest) || occursIn sub rest

/-- `strings.Contains(s, substr)`. -/
def stringsContains (s substr : String) : Bool :=
  occursIn substr.data s.data

/-- `const lowerhex = "0123456789abcdef"` of `strconv`, indexed. -/
def lowerhex (n : Nat) : Char :=
  "0123456789abcdef".data.getD n '0'

/-- `strconv.IsPrint`: the Latin-1 fast path is spelled out, the binary search
over the generated Unicode tables for runes above `0xFF` is the parameter
`printTable`. -/
def isPrint (printTable : Nat → Bool) (r : Nat) : Bool :=
  if r ≤ 0xFF then
    if 0x20 ≤ r ∧ r ≤ 0x7E then true
    else if 0xA1 ≤ r ∧ r ≤ 0xFF then r != 0xAD
    else false
  else printTable r

/-- `strconv.appendEscapedRune(buf, r, '"', false, false)`: the text one rune
contributes to a double-quoted Go string literal. -/
def appendEscapedRune (printTable : Nat → Bool) (c : Char) : List Char :=
  let r := c.toNat
  if c = '"' ∨ c = '\\' then ['\\', c]
  else if isPrint printTable r then [c]
  else if r = 0x07 then ['\\', 'a']
  else if r = 0x08 then ['\\', 'b']
  else if r = 0x0C then ['\\', 'f']
  else if r = 0x0A then ['\\', 'n']
  else if r = 0x0D then ['\\', 'r']
  else if r = 0x09 then ['\\', 't']
  else if r = 0x0B then ['\\', 'v']
  else if r < 0x20 ∨ r = 0x7F then
    ['\\', 'x', lowerhex (r >>> 4), lowerhex (r &&& 0xF)]
  else if r < 0x10000 then
    ['\\', 'u'] ++ [12, 8, 4, 0].map (fun s => lowerhex (r >>> s &&& 0xF))
  else
    ['\\', 'U'] ++ [28, 24, 20, 16, 12, 8, 4, 0].map (fun s => lowerhex (r >>> s &&& 0xF))

/-- `strconv.Quote(s)`, which is what the verb `%q` prints for a string. -/
def strconvQuote (printTable : Nat → Bool) (s : String) : String :=
  ⟨'"' :: (s.data.flatMap (appendEscapedRune printTable) ++ ['"'])⟩

/-- `[]byte(s)`: the UTF-8 bytes of a string, as numbers below 256. -/
def stringBytes (s : String) : List Nat :=
  (s.data.flatMap String.utf8EncodeChar).map UInt8.toNat

/-- Alphabet of `base64.StdEncoding`. -/
def encodeStd : String :=
  "ABCDEFGHIJKLMNOPQRSTUVWXYZabcdefghijklmnopqrstuvwxyz0123456789+/"

/-- `enc.encode[i]` for the standard alphabet. -/
def encodeStdAt (i : Nat) : Char :=
  encodeStd.data.getD i 'A'

/-- `base64.StdEncoding.Encode`: full groups of three bytes give four
characters, a remainder of two or one bytes is padded with `=`. -/
def base64Encode : List Nat → List Char
  | a :: b :: c :: rest =>
    let val := a <<< 16 ||| b <<< 8 ||| c
    encodeStdAt (val >>> 18 &&& 0x3F) :: encodeStdAt (val >>> 12 &&& 0x3F) ::
      encodeStdAt (val >>> 6 &&& 0x3F) :: encodeStdAt (val &&& 0x3F) :: base64Encode rest
  | [a, b] =>
    let val := a <<< 16 ||| b <<< 8
    [encodeStdAt (val >>> 18 &&& 0x3F), encodeStdAt (val >>> 12 &&& 0x3F),
      encodeStdAt (val >>> 6 &&& 0x3F), '=']
  | [a] =>
    let val := a <<< 16
    [encodeStdAt (val >>> 18 &&& 0x3F), encodeStdAt (val >>> 12 &&& 0x3F), '=', '=']
  | [] => []

/-- `base64.StdEncoding.EncodeToString([]byte(s))`. -/
def base64EncodeToString (s : String) : String :=
  ⟨base64Encode (stringBytes s)⟩

/-! ## `vapp_helper.go` -/

/-- `type ignitionConfig struct`. -/
structure ignitionConfig where
  PasswdHash : String
  Hostname : String
  SSHKeys : List String
  UserdataBase64 : String
  InstallPath : String
  deriving DecidableEq, Repr

/-- Fields of `ignitionConfig` that the template prints with `{{.Field}}`. -/
inductive Field where
  | PasswdHash | Hostname | UserdataBase64 | InstallPath
  deriving DecidableEq, Repr

/-- Evaluation of `{{.Field}}` on a config: `text/template` prints a string
value as it is. -/
def Field.eval (c : ignitionConfig) : Field → String
  | .PasswdHash => c.PasswdHash
  | .Hostname => c.Hostname
  | .UserdataBase64 => c.UserdataBase64
  | .InstallPath => c.InstallPath

/-- Name of a field as written in the template. -/
def Field.name : Field → String
  | .PasswdHash => "PasswdHash"
  | .Hostname => "Hostname"
  | .UserdataBase64 => "UserdataBase64"
  | .InstallPath => "InstallPath"

/-- Nodes that occur inside the body of the template's `range` action. -/
inductive RangeNode where
  /-- Literal text. -/
  | text (s : String)
  /-- `{{if $index}}body{{end}}` with a literal body. -/
  | ifIndex (body : String)
  /-- `{{$elem}}`. -/
  | elem
  deriving DecidableEq, Repr

/-- Top-level nodes of the parsed ignition template. -/
inductive Node where
  /-- Literal text. -/
  | text (s : String)
  /-- `{{.Field}}`. -/
  | field (f : Field)
  /-- `{{range $index,$elem := .SSHKeys}}body{{end}}`. -/
  | rangeSSHKeys (body : List RangeNode)
  deriving Repr

/-- Source text of a range-body node. -/
def RangeNode.source : RangeNode → String
  | .text s => s
  | .ifIndex body => "\x7b\x7bif $index\x7d\x7d" ++ body ++ "\x7b\x7bend\x7d\x7d"
  | .elem => "\x7b\x7b$elem\x7d\x7d"

/-- Source text of a node. -/
def Node.source : Node → String
  | .text s => s
  | .field f => "\x7b\x7b." ++ f.name ++ "\x7d\x7d"
  | .rangeSSHKeys body =>
    "\x7b\x7brange $index,$elem := .SSHKeys\x7d\x7d" ++ String.join (body.map RangeNode.source) ++ "\x7b\x7bend\x7d\x7d"

/-- Execution of one range-body node for the element `elem` at position `index`;
`{{if $index}}` is taken when the integer is not zero. -/
def RangeNode.exec (index : Nat) (elem : String) : RangeNode → String
  | .text s => s
  | .ifIndex body => if index ≠ 0 then body else ""
  | .elem => elem

/-- The `range` loop: the body is executed once per element, in order, with the
running index starting at `index`. -/
def execRange (body : List RangeNode) : Nat → List String → String
  | _, [] => ""
  | index, elem :: rest =>
    String.join (body.map (RangeNode.exec index elem)) ++ execRange body (index + 1) rest

/-- Execution of one top-level node. -/
def Node.exec (c : ignitionConfig) : Node → String
  | .text s => s
  | .field f => f.eval c
  | .rangeSSHKeys body => execRange body 0 c.SSHKeys

/-- `tmpl.Execute(buf, config)`: on a nil pointer the first field action fails,
otherwise the output of the nodes is written to the buffer in order. -/
def templateExecute (tree : List Node) : Option ignitionConfig → String × Option GoError
  | none => ("", some (.library "nil pointer evaluating *vmomi.ignitionConfig.PasswdHash"))
  | some c => (String.join (tree.map (Node.exec c)), none)

/-- The raw string literal `ignitionTemplate` of `ignitionFile`. -/
def ignitionTemplate : String :=
  "\x7b\n" ++
  "  \"ignition\": \x7b\"config\":\x7b\x7d,\"timeouts\":\x7b\x7d,\"version\":\"2.1.0\"\x7d," ++
  "\n" ++
  "  \"networkd\":\x7b\"units\":[\x7b\"contents\":\"[Match]\\nName=ens192\\n\\n" ++
  "[Network]\\nDHCP=yes\\nLinkLocalAddressing=no\\nIPv6AcceptRA=no" ++
  "\\n\",\"name\":\"00-ens192.network\"\x7d]\x7d,\n" ++
  "  \"passwd\":\x7b\"users\":[\x7b\"name\":\"core\",\"passwordHash\":\"\x7b\x7b.Passw" ++
  "dHash\x7d\x7d\",\"sshAuthorizedKeys\":[\x7b\x7brange $index,$elem := .SSHKe" ++
  "ys\x7d\x7d\x7b\x7bif $index\x7d\x7d,\x7b\x7bend\x7d\x7d\"\x7b\x7b$elem\x7d\x7d\"\x7b\x7bend\x7d\x7d]\x7d]\x7d,\n" ++
  "  \"storage\": \x7b\n" ++
  "\t\"directories\":[\x7b\"filesystem\":\"root\",\"path\":\"\x7b\x7b.InstallPath\x7d" ++
  "\x7d\",\"mode\":493\x7d],\n" ++
  "\t\"files\":[\n" ++
  "\t  \x7b\"filesystem\":\"root\",\"path\":\"/etc/hostname\",\"contents\":\x7b\"" ++
  "source\":\"data:,\x7b\x7b.Hostname\x7d\x7d\"\x7d,\"mode\":420\x7d,\n" ++
  "\t  \x7b\"filesystem\":\"root\",\"path\":\"\x7b\x7b.InstallPath\x7d\x7d/user_data\"," ++
  "\"contents\":\x7b\"source\":\"data:text/plain;charset=utf-8;base64,\x7b" ++
  "\x7b.UserdataBase64\x7d\x7d\"\x7d,\"mode\":420\x7d\n" ++
  "\t]\n" ++
  "  \x7d,\n" ++
  "  \"systemd\":\x7b\x7d\n" ++
  "\x7d\n"

/-- Result of `template.New("ignition").Parse(ignitionTemplate)`: the literal
text between the actions and the actions themselves, in source order. -/
def ignitionTemplateTree : List Node :=
  [ .text ("\x7b\n" ++
      "  \"ignition\": \x7b\"config\":\x7b\x7d,\"timeouts\":\x7b\x7d,\"version\":\"2.1.0\"\x7d," ++
      "\n" ++
      "  \"networkd\":\x7b\"units\":[\x7b\"contents\":\"[Match]\\nName=ens192\\n\\n" ++
      "[Network]\\nDHCP=yes\\nLinkLocalAddressing=no\\nIPv6AcceptRA=no" ++
      "\\n\",\"name\":\"00-ens192.network\"\x7d]\x7d,\n" ++
      "  \"passwd\":\x7b\"users\":[\x7b\"name\":\"core\",\"passwordHash\":\""),
    .field .PasswdHash,
    .text ("\",\"sshAuthorizedKeys\":["),
    .rangeSSHKeys [.ifIndex ",", .text "\"", .elem, .text "\""],
    .text ("]\x7d]\x7d,\n" ++
      "  \"storage\": \x7b\n" ++
      "\t\"directories\":[\x7b\"filesystem\":\"root\",\"path\":\""),
    .field .InstallPath,
    .text ("\",\"mode\":493\x7d],\n" ++
      "\t\"files\":[\n" ++
      "\t  \x7b\"filesystem\":\"root\",\"path\":\"/etc/hostname\",\"contents\":\x7b\"" ++
      "source\":\"data:,"),
    .field .Hostname,
    .text ("\"\x7d,\"mode\":420\x7d,\n" ++
      "\t  \x7b\"filesystem\":\"root\",\"path\":\""),
    .field .InstallPath,
    .text ("/user_data\",\"contents\":\x7b\"source\":\"data:text/plain;charset=ut" ++
      "f-8;base64,"),
    .field .UserdataBase64,
    .text ("\"\x7d,\"mode\":420\x7d\n" ++
      "\t]\n" ++
      "  \x7d,\n" ++
      "  \"systemd\":\x7b\x7d\n" ++
      "\x7d\n") ]

/-- `func ignitionFile(config *ignitionConfig) (string, error)`.  Parsing the
fixed template succeeds; a failing execution is wrapped and the text written
so far is dropped. -/
def ignitionFile (config : Option ignitionConfig) : String × Option GoError :=
  match templateExecute ignitionTemplateTree config with
  | (_, some err) =>
    ("", some (.wrap err "Creating ignition file for CoreOS failed on executing template"))
  | (buf, none) => (buf, none)

/-- `func packageInCloudInit(userdata string) string`. -/
def packageInCloudInit (userdata : String) : String :=
  let content := base64EncodeToString userdata
  ("#cloud-config\n" ++
    "\n" ++
    "write_files:\n" ++
    "- encoding: b64\n" ++
    "  content: ") ++ content ++
  ("\n" ++
    "  owner: root:root\n" ++
    "  path: /root/cloud-init-script\n" ++
    "  permissions: '0555'\n" ++
    "\n" ++
    "runcmd:\n" ++
    "- /root/cloud-init-script\n" ++
    "- rm /root/cloud-init-script\n")

/-- `func addSSHKeysSection(userdata string, sshKeys []string) (string, error)`. -/
def addSSHKeysSection (printTable : Nat → Bool) (userdata : String) (sshKeys : List String) :
    String × Option GoError :=
  if sshKeys.length = 0 then (userdata, none)
  else
    let s := userdata
    if stringsContains s "ssh_authorized_keys:" then
      ("", some (.errorf "userdata already contains key `ssh_authorized_keys`"))
    else
      let s := s ++ "\nssh_authorized_keys:\n"
      (sshKeys.foldl (fun s key => s ++ ("- " ++ strconvQuote printTable key ++ "\n")) s, none)

/-- `func prepareUserData(userdata string, sshKeys []string) (string, error)`. -/
def prepareUserData (printTable : Nat → Bool) (userdata : String) (sshKeys : List String) :
    String × Option GoError :=
  let s := if stringsHasPrefix userdata "#!/" then packageInCloudInit userdata else userdata
  addSSHKeysSection printTable s sshKeys


/-! ## `vapp_helper_test.go` -/

/-- `const expectedContent` of the test file. -/
def expectedContent : String :=
  "\x7b\n" ++
  "  \"ignition\": \x7b\"config\":\x7b\x7d,\"timeouts\":\x7b\x7d,\"version\":\"2.1.0\"\x7d," ++
  "\n" ++
  "  \"networkd\":\x7b\"units\":[\x7b\"contents\":\"[Match]\\nName=ens192\\n\\n" ++
  "[Network]\\nDHCP=yes\\nLinkLocalAddressing=no\\nIPv6AcceptRA=no" ++
  "\\n\",\"name\":\"00-ens192.network\"\x7d]\x7d,\n" ++
  "  \"passwd\":\x7b\"users\":[\x7b\"name\":\"core\",\"passwordHash\":\"$1$9H6.u" ++
  "ffe$e5XfhfWO4EcT8JdUvzEOT0\",\"sshAuthorizedKeys\":[\"ssh1\",\"ssh" ++
  "2\"]\x7d]\x7d,\n" ++
  "  \"storage\": \x7b\n" ++
  "\t\"directories\":[\x7b\"filesystem\":\"root\",\"path\":\"/var/lib/coreos" ++
  "-install\",\"mode\":493\x7d],\n" ++
  "\t\"files\":[\n" ++
  "\t  \x7b\"filesystem\":\"root\",\"path\":\"/etc/hostname\",\"contents\":\x7b\"" ++
  "source\":\"data:,foo\"\x7d,\"mode\":420\x7d,\n" ++
  "\t  \x7b\"filesystem\":\"root\",\"path\":\"/var/lib/coreos-install/user" ++
  "_data\",\"contents\":\x7b\"source\":\"data:text/plain;charset=utf-8;b" ++
  "ase64,XYZ\"\x7d,\"mode\":420\x7d\n" ++
  "\t]\n" ++
  "  \x7d,\n" ++
  "  \"systemd\":\x7b\x7d\n" ++
  "\x7d\n"

/-- The config built by `TestCoreOSIgnition`. -/
def testIgnitionConfig : ignitionConfig :=
  { PasswdHash := "$1$9H6.uffe$e5XfhfWO4EcT8JdUvzEOT0"
    Hostname := "foo"
    SSHKeys := ["ssh1", "ssh2"]
    UserdataBase64 := "XYZ"
    InstallPath := "/var/lib/coreos-install" }

/-- The user data of `TestAddSSHKeys`. -/
def testUserdata : String :=
  "#cloud-config\n" ++
  "runcmd:\n" ++
  "- 'echo 127.0.0.1 $(hostname) >> /etc/hosts-xxx'\n"

/-! ## `delete.go`

Results of type `(*T, error)` are an `Except GoError T`: every `return` of the
source gives a nil pointer exactly when it gives an error.  Results of type
`(string, error)` stay pairs. -/

/-- `api.VsphereProviderSpec1`, the fields that the package reads. -/
structure VsphereProviderSpec1 where
  Datacenter : String
  Folder : String
  Network : String
  SwitchUUID : String
  deriving DecidableEq, Repr

/-- `*object.VirtualMachine`: a handle on a remote virtual machine. -/
structure VirtualMachine where
  reference : String
  deriving DecidableEq, Repr

/-- `*object.Task`: a handle on a remote task. -/
structure Task where
  reference : String
  deriving DecidableEq, Repr

/-- `types.VirtualMachinePowerState`. -/
inductive VirtualMachinePowerState where
  | poweredOff | poweredOn | suspended
  deriving DecidableEq, Repr

/-- How the search flag was set before `searchFlag.VirtualMachine()`. -/
inductive SearchBy where
  /-- `searchFlag.SetByInventoryPath(ipath)`. -/
  | inventoryPath (ipath : String)
  /-- `searchFlag.SetByUUID(machineID)`. -/
  | uuid (machineID : String)
  deriving DecidableEq, Repr

/-- One remote call with its outcome, as written to the transcript. -/
inductive Event where
  /-- `searchFlag.VirtualMachine()`. -/
  | search (spec : VsphereProviderSpec1) (by_ : SearchBy) (result : Except GoError VirtualMachine)
  /-- `vm.PowerState(ctx)`. -/
  | powerState (vm : VirtualMachine) (result : Except GoError VirtualMachinePowerState)
  /-- `vm.PowerOff(ctx)`. -/
  | powerOff (vm : VirtualMachine) (result : Except GoError Task)
  /-- `task.WaitForResult(ctx, nil)`; the task info is not used. -/
  | waitForResult (task : Task) (err : Option GoError)
  /-- `vm.UUID(ctx)`, which has no error result. -/
  | uuid (vm : VirtualMachine) (result : String)
  /-- `vm.Destroy(ctx)`. -/
  | destroy (vm : VirtualMachine) (result : Except GoError Task)

/-- The remote system behind `*govmomi.Client`: each call answers from the
current state and moves to a next state. -/
structure Remote (σ : Type) where
  search : VsphereProviderSpec1 → SearchBy → σ → Except GoError VirtualMachine × σ
  powerState : VirtualMachine → σ → Except GoError VirtualMachinePowerState × σ
  powerOff : VirtualMachine → σ → Except GoError Task × σ
  waitForResult : Task → σ → Option GoError × σ
  uuid : VirtualMachine → σ → String × σ
  destroy : VirtualMachine → σ → Except GoError Task × σ

/-- State of the remote system and the calls issued so far, oldest first. -/
structure World (σ : Type) where
  state : σ
  transcript : List Event

/-- Issue `searchFlag.VirtualMachine()`. -/
def callSearch {σ : Type} (r : Remote σ) (spec : VsphereProviderSpec1) (by_ : SearchBy)
    (w : World σ) : Except GoError VirtualMachine × World σ :=
  ((r.search spec by_ w.state).1,
    ⟨(r.search spec by_ w.state).2,
      w.transcript ++ [.search spec by_ (r.search spec by_ w.state).1]⟩)

/-- Issue `vm.PowerState(ctx)`. -/
def callPowerState {σ : Type} (r : Remote σ) (vm : VirtualMachine) (w : World σ) :
    Except GoError VirtualMachinePowerState × World σ :=
  ((r.powerState vm w.state).1,
    ⟨(r.powerState vm w.state).2, w.transcript ++ [.powerState vm (r.powerState vm w.state).1]⟩)

/-- Issue `vm.PowerOff(ctx)`. -/
def callPowerOff {σ : Type} (r : Remote σ) (vm : VirtualMachine) (w : World σ) :
    Except GoError Task × World σ :=
  ((r.powerOff vm w.state).1,
    ⟨(r.powerOff vm w.state).2, w.transcript ++ [.powerOff vm (r.powerOff vm w.state).1]⟩)

/-- Issue `task.WaitForResult(ctx, nil)`. -/
def callWaitForResult {σ : Type} (r : Remote σ) (task : Task) (w : World σ) :
    Option GoError × World σ :=
  ((r.waitForResult task w.state).1,
    ⟨(r.waitForResult task w.state).2,
      w.transcript ++ [.waitForResult task (r.waitForResult task w.state).1]⟩)

/-- Issue `vm.UUID(ctx)`. -/
def callUUID {σ : Type} (r : Remote σ) (vm : VirtualMachine) (w : World σ) :
    String × World σ :=
  ((r.uuid vm w.state).1,
    ⟨(r.uuid vm w.state).2, w.transcript ++ [.uuid vm (r.uuid vm w.state).1]⟩)

/-- Issue `vm.Destroy(ctx)`. -/
def callDestroy {σ : Type} (r : Remote σ) (vm : VirtualMachine) (w : World σ) :
    Except GoError Task × World σ :=
  ((r.destroy vm w.state).1,
    ⟨(r.destroy vm w.state).2, w.transcript ++ [.destroy vm (r.destroy vm w.state).1]⟩)

/-- The local variable `ipath` of `findByIPath`:
`fmt.Sprintf("/%s/%s/%s", spec.Datacenter, folder, machineName)` with `folder`
either `"vm"` or `fmt.Sprintf("vm/%s", spec.Folder)`. -/
def ipath (spec : VsphereProviderSpec1) (machineName : String) : String :=
  let folder := if spec.Folder ≠ "" then "vm/" ++ spec.Folder else "vm"
  "/" ++ spec.Datacenter ++ "/" ++ folder ++ "/" ++ machineName

/-- `func findByIPath(ctx, client, spec, machineName) (*object.VirtualMachine, error)`. -/
def findByIPath {σ : Type} (r : Remote σ) (printTable : Nat → Bool)
    (spec : VsphereProviderSpec1) (machineName : String) (w : World σ) :
    Except GoError VirtualMachine × World σ :=
  match callSearch r spec (.inventoryPath (ipath spec machineName)) w with
  | (.error err, w1) =>
    match err with
    | .notFound _ => (.error (.machineNotFound machineName ""), w1)
    | _ =>
      (.error (.wrap err ("find by inventory path " ++
        strconvQuote printTable (ipath spec machineName) ++ " failed")), w1)
  | (.ok obj, w1) => (.ok obj, w1)

/-- `func findByUUID(ctx, client, spec, machineID) (*object.VirtualMachine, error)`. -/
def findByUUID {σ : Type} (r : Remote σ) (spec : VsphereProviderSpec1) (machineID : String)
    (w : World σ) :
    Except GoError VirtualMachine × World σ :=
  match callSearch r spec (.uuid machineID) w with
  | (.error err, w1) =>
    match err with
    | .notFound _ => (.error (.machineNotFound "" machineID), w1)
    | _ => (.error (.wrap err ("find by uuid " ++ machineID ++ " failed")), w1)
  | (.ok obj, w1) => (.ok obj, w1)

/-- `func findVM(ctx, client, providerSpec, machineName, machineID)`. -/
def findVM {σ : Type} (r : Remote σ) (printTable : Nat → Bool)
    (providerSpec : VsphereProviderSpec1) (machineName machineID : String) (w : World σ) :
    Except GoError VirtualMachine × World σ :=
  if machineID ≠ "" then findByUUID r providerSpec machineID w
  else findByIPath r printTable providerSpec machineName w

/-- `func doShutdown(ctx, client, spec, machineName, machineID)`. -/
def doShutdown {σ : Type} (r : Remote σ) (printTable : Nat → Bool)
    (spec : VsphereProviderSpec1) (machineName machineID : String) (w : World σ) :
    Except GoError VirtualMachine × World σ :=
  match findVM r printTable spec machineName machineID w with
  | (.error err, w1) => (.error err, w1)
  | (.ok vm, w1) =>
    match callPowerState r vm w1 with
    | (.error err, w2) => (.error (.wrap err "PowerState failed"), w2)
    | (.ok powerState, w2) =>
      if powerState = .poweredOn then
        match callPowerOff r vm w2 with
        | (.error err, w3) => (.error (.wrap err "starting PowerOff failed"), w3)
        | (.ok task, w3) =>
          match callWaitForResult r task w3 with
          | (some err, w4) => (.error (.wrap err "PowerOff failed"), w4)
          | (none, w4) => (.ok vm, w4)
      else (.ok vm, w2)

/-- `func shutDownVM(ctx, client, spec, machineName, machineID) (string, error)`. -/
def shutDownVM {σ : Type} (r : Remote σ) (printTable : Nat → Bool)
    (spec : VsphereProviderSpec1) (machineName machineID : String) (w : World σ) :
    (String × Option GoError) × World σ :=
  match doShutdown r printTable spec machineName machineID w with
  | (.error err, w1) => (("", some err), w1)
  | (.ok vm, w1) => (((callUUID r vm w1).1, none), (callUUID r vm w1).2)

/-- `func deleteVM(ctx, client, spec, machineName, machineID) (string, error)`. -/
def deleteVM {σ : Type} (r : Remote σ) (printTable : Nat → Bool)
    (spec : VsphereProviderSpec1) (machineName machineID : String) (w : World σ) :
    (String × Option GoError) × World σ :=
  match doShutdown r printTable spec machineName machineID w with
  | (.error err, w1) => (("", some err), w1)
  | (.ok vm, w1) =>
    match callUUID r vm w1 with
    | (foundMachineID, w2) =>
      match callDestroy r vm w2 with
      | (.error err, w3) => (("", some (.wrap err "starting Destroy failed")), w3)
      | (.ok task, w3) =>
        match callWaitForResult r task w3 with
        | (some err, w4) => (("", some (.wrap err "Destroy failed")), w4)
        | (none, w4) => ((foundMachineID, none), w4)

/-! ## `flags/network.go`

An `object.NetworkReference` is an interface value; it is modelled by the
results of the two methods the package calls on it. -/

/-- `types.BaseVirtualDeviceBackingInfo`: the backing kinds that
`EthernetCardBackingInfo` can return. -/
inductive BackingInfo where
  /-- `*types.VirtualEthernetCardDistributedVirtualPortBackingInfo`, with
  `Port.SwitchUuid` and `Port.PortgroupKey`. -/
  | distributedVirtualPort (SwitchUuid PortgroupKey : String)
  /-- `*types.VirtualEthernetCardNetworkBackingInfo`, with its `DeviceName`. -/
  | network (DeviceName : String)
  /-- Any other backing type. -/
  | other (typeName : String)
  deriving DecidableEq, Repr

/-- `object.NetworkReference`. -/
structure NetworkReference where
  /-- `network.Reference().Value`. -/
  reference : String
  /-- Result of `network.EthernetCardBackingInfo(ctx)`. -/
  ethernetCardBackingInfo : Except GoError BackingInfo

/-- `type NetworkFlag struct` (the embedded `*DatacenterFlag` is represented by
the finder that `findNetwork` takes). -/
structure NetworkFlag where
  name : String
  switchUUID : String
  net : Option NetworkReference
  adapter : String
  address : String
  isset : Bool

/-- Assignment `elems[key] = value` on a `map[string]string` kept as a list of
entries with distinct keys. -/
def mapAssign (elems : List (String × String)) (key value : String) : List (String × String) :=
  if elems.any (fun kv => kv.1 == key) then
    elems.map (fun kv => if kv.1 == key then (key, value) else kv)
  else elems ++ [(key, value)]

/-- What `%s` prints for a `map[string]string`: `map[k1:v1 k2:v2]`, keys in
increasing order. -/
def formatMap (elems : List (String × String)) : String :=
  "map[" ++
    " ".intercalate
      ((elems.insertionSort (fun a b => a.1 ≤ b.1)).map (fun kv => kv.1 ++ ":" ++ kv.2)) ++
    "]"

/-- The loop `for _, network := range networks` of `findNetwork`, started with
the entries collected so far in `elems`, followed by the final `return`. -/
def selectBySwitchUUID (switchUUID name : String) :
    List NetworkReference → List (String × String) → Except GoError NetworkReference
  | [], elems =>
    .error (.errorf ("path '" ++ name ++
      "' resolves to multiple networks. Found these switchUuids: '" ++ formatMap elems ++ "'"))
  | network :: rest, elems =>
    match network.ethernetCardBackingInfo with
    | .error err => .error err
    | .ok (.distributedVirtualPort switchUuid _) =>
      let elems := mapAssign elems network.reference switchUuid
      if switchUuid = switchUUID then .ok network
      else selectBySwitchUUID switchUUID name rest elems
    | .ok _ => selectBySwitchUUID switchUUID name rest elems

/-- `func (flag *NetworkFlag) findNetwork(ctx, name) (object.NetworkReference, error)`.
`finder` is the result of `flag.Finder()`: an error, or the finder, of which
only `NetworkList(ctx, name)` is used. -/
def NetworkFlag.findNetwork (flag : NetworkFlag)
    (finder : Except GoError (String → Except GoError (List NetworkReference)))
    (name : String) : Except GoError NetworkReference :=
  match finder with
  | .error err => .error err
  | .ok networkList =>
    match networkList name with
    | .error err => .error err
    | .ok networks =>
      match networks with
      | [network] => .ok network
      | _ =>
        if flag.switchUUID = "" then
          .error (.errorf ("path '" ++ name ++
            "' resolves to multiple networks. Need switchUuid to select correct network"))
        else selectBySwitchUUID flag.switchUUID name networks []

/-- `types.VirtualEthernetCard` with the fields of its embedded
`types.VirtualDevice`. -/
structure VirtualEthernetCard where
  Key : Int
  DeviceInfo : Option String
  Backing : Option BackingInfo
  Connectable : Option String
  SlotInfo : Option String
  ControllerKey : Int
  UnitNumber : Option Int
  AddressType : String
  MacAddress : String
  WakeOnLanEnabled : Option Bool
  ResourceAllocation : Option String
  ExternalId : String
  UptCompatibilityEnabled : Option Bool
  deriving DecidableEq, Repr

/-- A device that implements `types.BaseVirtualEthernetCard`: a concrete card
type (`VirtualE1000`, `VirtualVmxnet3`, ...) with its own fields and the
embedded card that `GetVirtualEthernetCard()` points to. -/
structure EthernetCardDevice where
  typeName : String
  ownFields : List (String × String)
  card : VirtualEthernetCard
  deriving DecidableEq, Repr

/-- Memory holding the devices: an address is a pointer to a device. -/
abbrev Heap := Nat → EthernetCardDevice

/-- Store `card` as the embedded card of the device at `addr`. -/
def Heap.setCard (heap : Heap) (addr : Nat) (card : VirtualEthernetCard) : Heap :=
  fun a => if a = addr then { heap addr with card := card } else heap a

/-- `func (flag *NetworkFlag) Change(device, update types.BaseVirtualDevice)`;
`device` and `update` are pointers, each statement reads the memory left by
the one before it. -/
def NetworkFlag.Change (_flag : NetworkFlag) (heap : Heap) (device update : Nat) : Heap :=
  let current := device
  let changed := update
  -- current.Backing = changed.Backing
  let heap1 := heap.setCard current
    { (heap current).card with Backing := (heap changed).card.Backing }
  -- if changed.MacAddress != "" { current.MacAddress = changed.MacAddress }
  let heap2 :=
    if (heap1 changed).card.MacAddress ≠ "" then
      heap1.setCard current
        { (heap1 current).card with MacAddress := (heap1 changed).card.MacAddress }
    else heap1
  -- if changed.AddressType != "" { current.AddressType = changed.AddressType }
  let heap3 :=
    if (heap2 changed).card.AddressType ≠ "" then
      heap2.setCard current
        { (heap2 current).card with AddressType := (heap2 changed).card.AddressType }
    else heap2
  heap3

/-! ## Auxiliary definitions for the proofs -/

/-- Boolean check that no `_` directly follows an `h`. -/
def noUnderscoreAfterH : List Char → Bool
  | a :: b :: rest => (a != 'h' || b != '_') && noUnderscoreAfterH (b :: rest)
  | _ => true

/-! ## Lemmas about strings -/

theorem occursIn_iff_isInfix (sub text : List Char) :
    occursIn sub text = true ↔ sub <:+: text := by
  induction text with
  | nil => cases sub <;> simp [occursIn, List.isPrefixOf]
  | cons c rest ih =>
    simp only [occursIn, Bool.or_eq_true, ih, List.infix_cons_iff, List.isPrefixOf_iff_prefix]

theorem stringsContains_iff (s sub : String) :
    stringsContains s sub = true ↔ ∃ pre post : String, s = pre ++ sub ++ post := by
  unfold stringsContains
  rw [occursIn_iff_isInfix]
  constructor
  · rintro ⟨a, b, h⟩
    exact ⟨⟨a⟩, ⟨b⟩, String.ext (by simp [String.data_append, h.symm])⟩
  · rintro ⟨pre, post, rfl⟩
    exact ⟨pre.data, post.data, by simp [String.data_append]⟩

theorem stringsHasPrefix_iff (s pre : String) :
    stringsHasPrefix s pre = true ↔ ∃ post : String, s = pre ++ post := by
  unfold stringsHasPrefix
  rw [List.isPrefixOf_iff_prefix]
  constructor
  · rintro ⟨b, h⟩
    exact ⟨⟨b⟩, String.ext (by simp [String.data_append, h.symm])⟩
  · rintro ⟨post, rfl⟩
    exact ⟨post.data, by simp [String.data_append]⟩

theorem join_cons (a : String) (l : List String) :
    String.join (a :: l) = a ++ String.join l := by
  apply String.ext
  simp [String.data_join, String.data_append]

theorem join_nil : String.join [] = "" := rfl

theorem foldl_append_eq_join (f : String → String) (keys : List String) (s : String) :
    keys.foldl (fun s key => s ++ f key) s = s ++ String.join (keys.map f) := by
  induction keys generalizing s with
  | nil => simp [join_nil, String.append_empty]
  | cons k rest ih =>
    simp only [List.foldl_cons, List.map_cons, join_cons, ih, String.append_assoc]

theorem intercalate_go_eq (acc sep : String) (l : List String) :
    String.intercalate.go acc sep l = acc ++ String.join (l.map (fun a => sep ++ a)) := by
  induction l generalizing acc with
  | nil => simp [String.intercalate.go, join_nil, String.append_empty]
  | cons a rest ih =>
    simp only [String.intercalate.go, ih, List.map_cons, join_cons, String.append_assoc]

/-! ## Lemmas about the template's `range` loop -/

theorem execRange_keys_succ (index : Nat) (keys : List String) :
    execRange [.ifIndex ",", .text "\"", .elem, .text "\""] (index + 1) keys
      = String.join (keys.map (fun k => "," ++ ("\"" ++ k ++ "\""))) := by
  induction keys generalizing index with
  | nil => rfl
  | cons k rest ih =>
    rw [execRange, ih]
    simp [RangeNode.exec, join_cons, join_nil, String.append_empty, String.append_assoc]

theorem execRange_keys_zero (keys : List String) :
    execRange [.ifIndex ",", .text "\"", .elem, .text "\""] 0 keys
      = ",".intercalate (keys.map (fun k => "\"" ++ k ++ "\"")) := by
  cases keys with
  | nil => rfl
  | cons k rest =>
    rw [execRange, execRange_keys_succ]
    simp [RangeNode.exec, String.intercalate, intercalate_go_eq, join_cons, join_nil,
      String.append_empty, String.empty_append, String.append_assoc, Function.comp_def]

set_option maxRecDepth 100000 in
/-- The tree used by `ignitionFile` is the parse of the source literal: writing
its nodes back out gives `ignitionTemplate` character for character. -/
theorem ignitionTemplateTree_source :
    String.join (ignitionTemplateTree.map Node.source) = ignitionTemplate := by
  decide

/-! ## Lemmas about `%q` -/

theorem appendEscapedRune_printable (printTable : Nat → Bool) (c : Char)
    (h : 0x20 ≤ c.toNat ∧ c.toNat ≤ 0x7E) (hq : c ≠ '"') (hb : c ≠ '\\') :
    appendEscapedRune printTable c = [c] := by
  have h1 : c.toNat ≤ 0xFF := by omega
  simp [appendEscapedRune, isPrint, hq, hb, h, h1]

theorem strconvQuote_printable (printTable : Nat → Bool) (key : String)
    (h : ∀ c ∈ key.data, 0x20 ≤ c.toNat ∧ c.toNat ≤ 0x7E ∧ c ≠ '"' ∧ c ≠ '\\') :
    strconvQuote printTable key = "\"" ++ key ++ "\"" := by
  have hflat : ∀ l : List Char,
      (∀ c ∈ l, 0x20 ≤ c.toNat ∧ c.toNat ≤ 0x7E ∧ c ≠ '"' ∧ c ≠ '\\') →
      l.flatMap (appendEscapedRune printTable) = l := by
    intro l
    induction l with
    | nil => intro _; rfl
    | cons c rest ih =>
      intro hl
      have hc := hl c (List.mem_cons_self _ _)
      rw [List.flatMap_cons, appendEscapedRune_printable printTable c ⟨hc.1, hc.2.1⟩ hc.2.2.1 hc.2.2.2,
        ih (fun d hd => hl d (List.mem_cons_of_mem _ hd))]
      rfl
  apply String.ext
  simp [strconvQuote, hflat key.data h, String.data_append]

/-! ## Lemmas about base64 and the cloud-init wrapper -/

theorem utf8EncodeChar_ascii (c : Char) (h : c.toNat < 128) :
    (String.utf8EncodeChar c).map UInt8.toNat = [c.toNat] := by
  have hnat : c.val.toNat = c.toNat := rfl
  have hv : c.val ≤ 0x7f := by
    rw [UInt32.le_def]
    show c.val.toNat ≤ 127
    omega
  simp only [String.utf8EncodeChar, hv, if_true, List.map_cons, List.map_nil]
  congr 1
  show c.val.toUInt8.toNat = c.val.toNat
  simp [UInt32.toUInt8, Nat.toUInt8, UInt8.toNat, UInt8.ofNat]
  omega

theorem stringBytes_ascii (text : String) (h : ∀ c ∈ text.data, c.toNat < 128) :
    stringBytes text = text.data.map Char.toNat := by
  unfold stringBytes
  generalize text.data = l at h
  induction l with
  | nil => rfl
  | cons c rest ih =>
    rw [List.flatMap_cons, List.map_append, utf8EncodeChar_ascii c (h c (List.mem_cons_self _ _)),
      ih (fun d hd => h d (List.mem_cons_of_mem _ hd))]
    rfl

theorem getD_eq_or_mem {α : Type} (l : List α) (i : Nat) (d : α) :
    l.getD i d = d ∨ l.getD i d ∈ l := by
  induction l generalizing i with
  | nil => left; rfl
  | cons a rest ih =>
    cases i with
    | zero => right; simp
    | succ j =>
      rcases ih j with h | h
      · left; simpa using h
      · right; simpa using Or.inr h

theorem encodeStdAt_ne_underscore (i : Nat) : encodeStdAt i ≠ '_' := by
  have hall : ∀ c ∈ encodeStd.data, c ≠ '_' := by decide
  rcases getD_eq_or_mem encodeStd.data i 'A' with h | h
  · unfold encodeStdAt; rw [h]; decide
  · exact hall _ h

theorem base64Encode_ne_underscore (bytes : List Nat) :
    ∀ c ∈ base64Encode bytes, c ≠ '_' := by
  induction bytes using base64Encode.induct with
  | case1 a b c rest ih =>
    intro x hx
    simp only [base64Encode, List.mem_cons] at hx
    rcases hx with rfl | rfl | rfl | rfl | hx
    · exact encodeStdAt_ne_underscore _
    · exact encodeStdAt_ne_underscore _
    · exact encodeStdAt_ne_underscore _
    · exact encodeStdAt_ne_underscore _
    · exact ih x hx
  | case2 a b =>
    intro x hx
    simp only [base64Encode, List.mem_cons, List.mem_singleton, List.not_mem_nil, or_false] at hx
    rcases hx with rfl | rfl | rfl | rfl
    · exact encodeStdAt_ne_underscore _
    · exact encodeStdAt_ne_underscore _
    · exact encodeStdAt_ne_underscore _
    · decide
  | case3 a =>
    intro x hx
    simp only [base64Encode, List.mem_cons, List.mem_singleton, List.not_mem_nil, or_false] at hx
    rcases hx with rfl | rfl | rfl | rfl
    · exact encodeStdAt_ne_underscore _
    · exact encodeStdAt_ne_underscore _
    · decide
    · decide
  | case4 => intro x hx; simp [base64Encode] at hx

theorem chain_of_noUnderscoreAfterH (l : List Char) (h : noUnderscoreAfterH l = true) :
    List.Chain' (fun a b : Char => a ≠ 'h' ∨ b ≠ '_') l := by
  induction l with
  | nil => exact List.chain'_nil
  | cons a t ih =>
    cases t with
    | nil => exact List.chain'_singleton a
    | cons b t2 =>
      simp only [noUnderscoreAfterH, Bool.and_eq_true, Bool.or_eq_true, bne_iff_ne] at h
      rw [List.chain'_cons]
      exact ⟨h.1, ih h.2⟩

theorem chain_of_no_underscore (l : List Char) (h : ∀ c ∈ l, c ≠ '_') :
    List.Chain' (fun a b : Char => a ≠ 'h' ∨ b ≠ '_') l := by
  induction l with
  | nil => exact List.chain'_nil
  | cons a t ih =>
    cases t with
    | nil => exact List.chain'_singleton a
    | cons b t2 =>
      rw [List.chain'_cons]
      exact ⟨Or.inr (h b (by simp)), ih (fun c hc => h c (List.mem_cons_of_mem _ hc))⟩

/-- Text of the cloud-init document around the encoded script. -/
theorem packageInCloudInit_eq (userdata : String) :
    packageInCloudInit userdata
      = "#cloud-config\n\nwrite_files:\n- encoding: b64\n  content: " ++
        base64EncodeToString userdata ++
        "\n  owner: root:root\n  path: /root/cloud-init-script\n  permissions: '0555'\n\nruncmd:\n- /root/cloud-init-script\n- rm /root/cloud-init-script\n" := by
  rfl

/-- The cloud-init document never contains the text `ssh_authorized_keys:`: in
the fixed text no `_` follows an `h`, and base64 output has no `_` at all. -/
theorem packageInCloudInit_no_section (userdata : String) :
    stringsContains (packageInCloudInit userdata) "ssh_authorized_keys:" = false := by
  rw [Bool.eq_false_iff]
  intro hc
  unfold stringsContains at hc
  rw [occursIn_iff_isInfix] at hc
  have hchain : List.Chain' (fun a b : Char => a ≠ 'h' ∨ b ≠ '_')
      (packageInCloudInit userdata).data := by
    rw [packageInCloudInit_eq]
    simp only [base64EncodeToString, String.data_append]
    rw [List.chain'_append]
    refine ⟨?_, chain_of_noUnderscoreAfterH _ (by decide), ?_⟩
    · rw [List.chain'_append]
      refine ⟨chain_of_noUnderscoreAfterH _ (by decide),
        chain_of_no_underscore _ (base64Encode_ne_underscore _), ?_⟩
      intro x hx y _
      have hx2 : x = ' ' := by
        have : ("#cloud-config\n\nwrite_files:\n- encoding: b64\n  content: ".data).getLast?
            = some ' ' := by
          decide
        rw [this] at hx
        simpa using hx.symm
      left; rw [hx2]; decide
    · intro x _ y hy
      right
      have : y = '\n' := by simpa using hy.symm
      rw [this]; decide
  have hsub : ['h', '_'] <:+: "ssh_authorized_keys:".data :=
    ⟨"ss".data, "authorized_keys:".data, by decide⟩
  have hneedle := List.Chain'.infix hchain hc
  have hbad := List.Chain'.infix hneedle hsub
  rw [List.chain'_pair] at hbad
  revert hbad
  decide

/-! ## Lemmas about the remote calls of `delete.go` -/

theorem callSearch_eq {σ : Type} (r : Remote σ) (spec : VsphereProviderSpec1)
    (by_ : SearchBy) (w : World σ) :
    ∃ res st, callSearch r spec by_ w = (res, ⟨st, w.transcript ++ [.search spec by_ res]⟩) :=
  ⟨_, _, rfl⟩

theorem callPowerState_eq {σ : Type} (r : Remote σ) (vm : VirtualMachine) (w : World σ) :
    ∃ res st, callPowerState r vm w = (res, ⟨st, w.transcript ++ [.powerState vm res]⟩) :=
  ⟨_, _, rfl⟩

theorem callPowerOff_eq {σ : Type} (r : Remote σ) (vm : VirtualMachine) (w : World σ) :
    ∃ res st, callPowerOff r vm w = (res, ⟨st, w.transcript ++ [.powerOff vm res]⟩) :=
  ⟨_, _, rfl⟩

theorem callWaitForResult_eq {σ : Type} (r : Remote σ) (task : Task) (w : World σ) :
    ∃ res st, callWaitForResult r task w = (res, ⟨st, w.transcript ++ [.waitForResult task res]⟩) :=
  ⟨_, _, rfl⟩

theorem callUUID_eq {σ : Type} (r : Remote σ) (vm : VirtualMachine) (w : World σ) :
    ∃ res st, callUUID r vm w = (res, ⟨st, w.transcript ++ [.uuid vm res]⟩) :=
  ⟨_, _, rfl⟩

theorem callDestroy_eq {σ : Type} (r : Remote σ) (vm : VirtualMachine) (w : World σ) :
    ∃ res st, callDestroy r vm w = (res, ⟨st, w.transcript ++ [.destroy vm res]⟩) :=
  ⟨_, _, rfl⟩

/-- Shape of a run of `findVM`: one search, whose outcome decides the result. -/
theorem findVM_run {σ : Type} (r : Remote σ) (printTable : Nat → Bool)
    (spec : VsphereProviderSpec1) (machineName machineID : String) (w : World σ) :
    ∃ by_ st,
      (∃ vm, findVM r printTable spec machineName machineID w
          = (.ok vm, ⟨st, w.transcript ++ [.search spec by_ (.ok vm)]⟩))
      ∨ (∃ e err, findVM r printTable spec machineName machineID w
          = (.error err, ⟨st, w.transcript ++ [.search spec by_ (.error e)]⟩)) := by
  unfold findVM
  split
  · obtain ⟨res, st, h⟩ := callSearch_eq r spec (.uuid machineID) w
    refine ⟨.uuid machineID, st, ?_⟩
    unfold findByUUID
    rw [h]
    cases res with
    | ok vm => exact Or.inl ⟨vm, rfl⟩
    | error e => cases e <;> exact Or.inr ⟨_, _, rfl⟩
  · obtain ⟨res, st, h⟩ := callSearch_eq r spec (.inventoryPath (ipath spec machineName)) w
    refine ⟨.inventoryPath (ipath spec machineName), st, ?_⟩
    unfold findByIPath
    rw [h]
    cases res with
    | ok vm => exact Or.inl ⟨vm, rfl⟩
    | error e => cases e <;> exact Or.inr ⟨_, _, rfl⟩

/-- Shape of a run of `doShutdown`. -/
theorem doShutdown_run {σ : Type} (r : Remote σ) (printTable : Nat → Bool)
    (spec : VsphereProviderSpec1) (machineName machineID : String) (w : World σ) :
    ∃ evs st res, doShutdown r printTable spec machineName machineID w
        = (res, ⟨st, w.transcript ++ evs⟩) ∧
      ((∃ by_ e err, evs = [.search spec by_ (.error e)] ∧ res = .error err)
      ∨ (∃ by_ vm e, evs = [.search spec by_ (.ok vm), .powerState vm (.error e)]
          ∧ res = .error (.wrap e "PowerState failed"))
      ∨ (∃ by_ vm e, evs = [.search spec by_ (.ok vm), .powerState vm (.ok .poweredOn),
            .powerOff vm (.error e)]
          ∧ res = .error (.wrap e "starting PowerOff failed"))
      ∨ (∃ by_ vm task e, evs = [.search spec by_ (.ok vm), .powerState vm (.ok .poweredOn),
            .powerOff vm (.ok task), .waitForResult task (some e)]
          ∧ res = .error (.wrap e "PowerOff failed"))
      ∨ (∃ by_ vm task, evs = [.search spec by_ (.ok vm), .powerState vm (.ok .poweredOn),
            .powerOff vm (.ok task), .waitForResult task none]
          ∧ res = .ok vm)
      ∨ (∃ by_ vm ps, ps ≠ .poweredOn
          ∧ evs = [.search spec by_ (.ok vm), .powerState vm (.ok ps)]
          ∧ res = .ok vm)) := by
  obtain ⟨by_, st1, hfind | hfind⟩ := findVM_run r printTable spec machineName machineID w
  · obtain ⟨vm, hfind⟩ := hfind
    obtain ⟨ps, st2, hps⟩ := callPowerState_eq r vm ⟨st1, w.transcript ++ [.search spec by_ (.ok vm)]⟩
    simp only [List.append_assoc, List.singleton_append, List.cons_append, List.nil_append] at hps
    cases ps with
    | error e =>
      refine ⟨_, st2, _, ?_, Or.inr (Or.inl ⟨by_, vm, e, rfl, rfl⟩)⟩
      simp only [doShutdown, hfind, hps, List.append_assoc, List.singleton_append]
    | ok ps =>
      by_cases hon : ps = .poweredOn
      · subst hon
        obtain ⟨off, st3, hoff⟩ := callPowerOff_eq r vm
          ⟨st2, w.transcript ++ [.search spec by_ (.ok vm)] ++ [.powerState vm (.ok .poweredOn)]⟩
        simp only [List.append_assoc, List.singleton_append, List.cons_append, List.nil_append] at hoff
        cases off with
        | error e =>
          refine ⟨_, st3, _, ?_, Or.inr (Or.inr (Or.inl ⟨by_, vm, e, rfl, rfl⟩))⟩
          simp only [doShutdown, hfind, hps, hoff, if_true, List.append_assoc,
            List.singleton_append, List.cons_append, List.nil_append]
        | ok task =>
          obtain ⟨wt, st4, hwt⟩ := callWaitForResult_eq r task
            ⟨st3, w.transcript ++ [.search spec by_ (.ok vm)] ++ [.powerState vm (.ok .poweredOn)]
              ++ [.powerOff vm (.ok task)]⟩
          simp only [List.append_assoc, List.singleton_append, List.cons_append, List.nil_append] at hwt
          cases wt with
          | some e =>
            refine ⟨_, st4, _, ?_,
              Or.inr (Or.inr (Or.inr (Or.inl ⟨by_, vm, task, e, rfl, rfl⟩)))⟩
            simp only [doShutdown, hfind, hps, hoff, hwt, if_true, List.append_assoc,
              List.singleton_append, List.cons_append, List.nil_append]
          | none =>
            refine ⟨_, st4, _, ?_,
              Or.inr (Or.inr (Or.inr (Or.inr (Or.inl ⟨by_, vm, task, rfl, rfl⟩))))⟩
            simp only [doShutdown, hfind, hps, hoff, hwt, if_true, List.append_assoc,
              List.singleton_append, List.cons_append, List.nil_append]
      · refine ⟨_, st2, _, ?_,
          Or.inr (Or.inr (Or.inr (Or.inr (Or.inr ⟨by_, vm, ps, hon, rfl, rfl⟩))))⟩
        simp only [doShutdown, hfind, hps, hon, if_false, List.append_assoc,
          List.singleton_append, List.cons_append, List.nil_append]
  · obtain ⟨e, err, hfind⟩ := hfind
    refine ⟨_, st1, _, ?_, Or.inl ⟨by_, e, err, rfl, rfl⟩⟩
    simp only [doShutdown, hfind]

/-! ## Lemmas about the selection loop of `findNetwork` -/

theorem selectBySwitchUUID_match (switchUUID name : String) (pre : List NetworkReference)
    (network : NetworkReference) (post : List NetworkReference) (elems : List (String × String))
    (hpre : ∀ m ∈ pre, ∃ info, m.ethernetCardBackingInfo = .ok info ∧
      ∀ key, info ≠ .distributedVirtualPort switchUUID key)
    (hmatch : ∃ key, network.ethernetCardBackingInfo
      = .ok (.distributedVirtualPort switchUUID key)) :
    selectBySwitchUUID switchUUID name (pre ++ network :: post) elems = .ok network := by
  induction pre generalizing elems with
  | nil =>
    obtain ⟨key, hkey⟩ := hmatch
    simp only [List.nil_append, selectBySwitchUUID, hkey, if_true]
  | cons m rest ih =>
    obtain ⟨info, hinfo, hne⟩ := hpre m (List.mem_cons_self _ _)
    have hrest := fun elems => ih elems (fun x hx => hpre x (List.mem_cons_of_mem _ hx))
    cases info with
    | distributedVirtualPort uuid key =>
      have hu : uuid ≠ switchUUID := fun h => hne key (by rw [h])
      simp only [List.cons_append, selectBySwitchUUID, hinfo, hu, if_false]
      exact hrest _
    | network dev =>
      simp only [List.cons_append, selectBySwitchUUID, hinfo]
      exact hrest _
    | other t =>
      simp only [List.cons_append, selectBySwitchUUID, hinfo]
      exact hrest _

theorem selectBySwitchUUID_backing_error (switchUUID name : String)
    (pre : List NetworkReference) (network : NetworkReference) (post : List NetworkReference)
    (elems : List (String × String)) (err : GoError)
    (hpre : ∀ m ∈ pre, ∃ info, m.ethernetCardBackingInfo = .ok info ∧
      ∀ key, info ≠ .distributedVirtualPort switchUUID key)
    (herr : network.ethernetCardBackingInfo = .error err) :
    selectBySwitchUUID switchUUID name (pre ++ network :: post) elems = .error err := by
  induction pre generalizing elems with
  | nil => simp only [List.nil_append, selectBySwitchUUID, herr]
  | cons m rest ih =>
    obtain ⟨info, hinfo, hne⟩ := hpre m (List.mem_cons_self _ _)
    have hrest := fun elems => ih elems (fun x hx => hpre x (List.mem_cons_of_mem _ hx))
    cases info with
    | distributedVirtualPort uuid key =>
      have hu : uuid ≠ switchUUID := fun h => hne key (by rw [h])
      simp only [List.cons_append, selectBySwitchUUID, hinfo, hu, if_false]
      exact hrest _
    | network dev =>
      simp only [List.cons_append, selectBySwitchUUID, hinfo]
      exact hrest _
    | other t =>
      simp only [List.cons_append, selectBySwitchUUID, hinfo]
      exact hrest _

theorem selectBySwitchUUID_no_match (switchUUID name : String)
    (networks : List NetworkReference) (elems : List (String × String))
    (hall : ∀ m ∈ networks, ∃ info, m.ethernetCardBackingInfo = .ok info ∧
      ∀ key, info ≠ .distributedVirtualPort switchUUID key) :
    ∃ msg, selectBySwitchUUID switchUUID name networks elems = .error (.errorf msg) := by
  induction networks generalizing elems with
  | nil => exact ⟨_, rfl⟩
  | cons m rest ih =>
    obtain ⟨info, hinfo, hne⟩ := hall m (List.mem_cons_self _ _)
    have hrest := fun elems => ih elems (fun x hx => hall x (List.mem_cons_of_mem _ hx))
    cases info with
    | distributedVirtualPort uuid key =>
      have hu : uuid ≠ switchUUID := fun h => hne key (by rw [h])
      simp only [selectBySwitchUUID, hinfo, hu, if_false]
      exact hrest _
    | network dev =>
      simp only [selectBySwitchUUID, hinfo]
      exact hrest _
    | other t =>
      simp only [selectBySwitchUUID, hinfo]
      exact hrest _

/-! ## Theorems: `vapp_helper.go` -/

set_option maxRecDepth 100000 in
/-- C1: for every config `ignitionFile` returns no error and the fixed template
text with `PasswdHash`, `InstallPath` (twice), `Hostname` and `UserdataBase64`
inserted as they are and the SSH keys written in order, each between double
quotes, separated by single commas; no key gives `[]`; and the config of
`TestCoreOSIgnition` gives `expectedContent`. -/
theorem ignitionFile_renders_template :
    (∀ c : ignitionConfig,
      ignitionFile (some c) =
        (("\x7b\n" ++
        "  \"ignition\": \x7b\"config\":\x7b\x7d,\"timeouts\":\x7b\x7d,\"version\":\"2.1.0\"\x7d," ++
        "\n" ++
        "  \"networkd\":\x7b\"units\":[\x7b\"contents\":\"[Match]\\nName=ens192\\n\\n" ++
        "[Network]\\nDHCP=yes\\nLinkLocalAddressing=no\\nIPv6AcceptRA=no" ++
        "\\n\",\"name\":\"00-ens192.network\"\x7d]\x7d,\n" ++
        "  \"passwd\":\x7b\"users\":[\x7b\"name\":\"core\",\"passwordHash\":\"" ++
        c.PasswdHash ++
        "\",\"sshAuthorizedKeys\":[" ++
        ",".intercalate (c.SSHKeys.map (fun key => "\"" ++ key ++ "\"")) ++
        ("]\x7d]\x7d,\n" ++
        "  \"storage\": \x7b\n" ++
        "\t\"directories\":[\x7b\"filesystem\":\"root\",\"path\":\"") ++
        c.InstallPath ++
        ("\",\"mode\":493\x7d],\n" ++
        "\t\"files\":[\n" ++
        "\t  \x7b\"filesystem\":\"root\",\"path\":\"/etc/hostname\",\"contents\":\x7b\"" ++
        "source\":\"data:,") ++
        c.Hostname ++
        ("\"\x7d,\"mode\":420\x7d,\n" ++
        "\t  \x7b\"filesystem\":\"root\",\"path\":\"") ++
        c.InstallPath ++
        ("/user_data\",\"contents\":\x7b\"source\":\"data:text/plain;charset=ut" ++
        "f-8;base64,") ++
        c.UserdataBase64 ++
        ("\"\x7d,\"mode\":420\x7d\n" ++
        "\t]\n" ++
        "  \x7d,\n" ++
        "  \"systemd\":\x7b\x7d\n" ++
        "\x7d\n")), none))
    ∧ (∀ passwdHash hostname userdataBase64 installPath : String,
      ignitionFile (some ⟨passwdHash, hostname, [], userdataBase64, installPath⟩) =
        (("\x7b\n" ++
        "  \"ignition\": \x7b\"config\":\x7b\x7d,\"timeouts\":\x7b\x7d,\"version\":\"2.1.0\"\x7d," ++
        "\n" ++
        "  \"networkd\":\x7b\"units\":[\x7b\"contents\":\"[Match]\\nName=ens192\\n\\n" ++
        "[Network]\\nDHCP=yes\\nLinkLocalAddressing=no\\nIPv6AcceptRA=no" ++
        "\\n\",\"name\":\"00-ens192.network\"\x7d]\x7d,\n" ++
        "  \"passwd\":\x7b\"users\":[\x7b\"name\":\"core\",\"passwordHash\":\"" ++
        passwdHash ++
        "\",\"sshAuthorizedKeys\":[" ++
        "" ++
        ("]\x7d]\x7d,\n" ++
        "  \"storage\": \x7b\n" ++
        "\t\"directories\":[\x7b\"filesystem\":\"root\",\"path\":\"") ++
        installPath ++
        ("\",\"mode\":493\x7d],\n" ++
        "\t\"files\":[\n" ++
        "\t  \x7b\"filesystem\":\"root\",\"path\":\"/etc/hostname\",\"contents\":\x7b\"" ++
        "source\":\"data:,") ++
        hostname ++
        ("\"\x7d,\"mode\":420\x7d,\n" ++
        "\t  \x7b\"filesystem\":\"root\",\"path\":\"") ++
        installPath ++
        ("/user_data\",\"contents\":\x7b\"source\":\"data:text/plain;charset=ut" ++
        "f-8;base64,") ++
        userdataBase64 ++
        ("\"\x7d,\"mode\":420\x7d\n" ++
        "\t]\n" ++
        "  \x7d,\n" ++
        "  \"systemd\":\x7b\x7d\n" ++
        "\x7d\n")), none))
    ∧ ignitionFile (some testIgnitionConfig) = (expectedContent, none) := by
  have hgen : ∀ c : ignitionConfig,
      ignitionFile (some c) =
        (("\x7b\n" ++
        "  \"ignition\": \x7b\"config\":\x7b\x7d,\"timeouts\":\x7b\x7d,\"version\":\"2.1.0\"\x7d," ++
        "\n" ++
        "  \"networkd\":\x7b\"units\":[\x7b\"contents\":\"[Match]\\nName=ens192\\n\\n" ++
        "[Network]\\nDHCP=yes\\nLinkLocalAddressing=no\\nIPv6AcceptRA=no" ++
        "\\n\",\"name\":\"00-ens192.network\"\x7d]\x7d,\n" ++
        "  \"passwd\":\x7b\"users\":[\x7b\"name\":\"core\",\"passwordHash\":\"" ++
        c.PasswdHash ++
        "\",\"sshAuthorizedKeys\":[" ++
        ",".intercalate (c.SSHKeys.map (fun key => "\"" ++ key ++ "\"")) ++
        ("]\x7d]\x7d,\n" ++
        "  \"storage\": \x7b\n" ++
        "\t\"directories\":[\x7b\"filesystem\":\"root\",\"path\":\"") ++
        c.InstallPath ++
        ("\",\"mode\":493\x7d],\n" ++
        "\t\"files\":[\n" ++
        "\t  \x7b\"filesystem\":\"root\",\"path\":\"/etc/hostname\",\"contents\":\x7b\"" ++
        "source\":\"data:,") ++
        c.Hostname ++
        ("\"\x7d,\"mode\":420\x7d,\n" ++
        "\t  \x7b\"filesystem\":\"root\",\"path\":\"") ++
        c.InstallPath ++
        ("/user_data\",\"contents\":\x7b\"source\":\"data:text/plain;charset=ut" ++
        "f-8;base64,") ++
        c.UserdataBase64 ++
        ("\"\x7d,\"mode\":420\x7d\n" ++
        "\t]\n" ++
        "  \x7d,\n" ++
        "  \"systemd\":\x7b\x7d\n" ++
        "\x7d\n")), none) := by
    intro c
    simp only [ignitionFile, templateExecute, ignitionTemplateTree, List.map_cons, List.map_nil,
      Node.exec, Field.eval, execRange_keys_zero, join_cons, join_nil, String.append_empty,
      String.append_assoc]
  refine ⟨hgen, ?_, ?_⟩
  · intro passwdHash hostname userdataBase64 installPath
    exact hgen ⟨passwdHash, hostname, [], userdataBase64, installPath⟩
  · decide

/-- C2: when the user data contains the text `ssh_authorized_keys:` somewhere
and the key list is not empty, `addSSHKeysSection` returns the empty string
together with an error. -/
theorem addSSHKeysSection_existing_section_fails (printTable : Nat → Bool)
    (userdata : String) (sshKeys : List String)
    (hcontains : ∃ pre post : String, userdata = pre ++ "ssh_authorized_keys:" ++ post)
    (hkeys : sshKeys ≠ []) :
    addSSHKeysSection printTable userdata sshKeys =
      ("", some (.errorf "userdata already contains key `ssh_authorized_keys`")) := by
  have hc : stringsContains userdata "ssh_authorized_keys:" = true :=
    (stringsContains_iff _ _).2 hcontains
  have hlen : ¬ sshKeys.length = 0 := by
    simpa [List.length_eq_zero] using hkeys
  simp only [addSSHKeysSection, hlen, hc, if_true, if_false]

/-- Witness for C2: a cloud-config that already has the section, one key. -/
theorem addSSHKeysSection_existing_section_fails_witness :
    addSSHKeysSection (fun _ => true) "#cloud-config\nssh_authorized_keys:\n- \"old\"\n" ["ssh1"]
      = ("", some (.errorf "userdata already contains key `ssh_authorized_keys`")) :=
  addSSHKeysSection_existing_section_fails (fun _ => true)
    "#cloud-config\nssh_authorized_keys:\n- \"old\"\n" ["ssh1"]
    ⟨"#cloud-config\n", "\n- \"old\"\n", by decide⟩ (by decide)

set_option maxRecDepth 100000 in
/-- C3: when the user data does not contain `ssh_authorized_keys:` and the key
list is not empty, `addSSHKeysSection` returns no error and the user data
followed by a blank line break, the header line and one line `- ` + `%q` of the
key per key, in order; the user data is a prefix of the result; `%q` of a key
of printable ASCII without `"` and `\` is the key between double quotes; the
input of `TestAddSSHKeys` gives the text the test expects.  The `%q` quoting
is also fixed on keys outside that class by the text Go prints for them: `"`
and `\` get a backslash, the seven named control characters their letter,
other control characters and DEL `\x` and two digits, unprintable Latin-1
`\u` and four digits, printable Latin-1 itself, and above Latin-1 the rune
itself when the print table has it, else `\u` or `\U`; and a run with such a
key is evaluated. -/
theorem addSSHKeysSection_appends_section (printTable : Nat → Bool)
    (userdata : String) (sshKeys : List String)
    (hfree : ¬ ∃ pre post : String, userdata = pre ++ "ssh_authorized_keys:" ++ post)
    (hkeys : sshKeys ≠ []) :
    addSSHKeysSection printTable userdata sshKeys =
        (userdata ++ "\nssh_authorized_keys:\n" ++
          String.join (sshKeys.map (fun key => "- " ++ strconvQuote printTable key ++ "\n")),
          none)
    ∧ stringsHasPrefix (addSSHKeysSection printTable userdata sshKeys).1 userdata = true
    ∧ (∀ key : String,
        (∀ c ∈ key.data, 0x20 ≤ c.toNat ∧ c.toNat ≤ 0x7E ∧ c ≠ '"' ∧ c ≠ '\\') →
        strconvQuote printTable key = "\"" ++ key ++ "\"")
    ∧ addSSHKeysSection printTable testUserdata ["ssh1", "ssh2"] =
        (testUserdata ++ "\nssh_authorized_keys:\n- \"ssh1\"\n- \"ssh2\"\n", none)
    ∧ strconvQuote printTable "a\"b\\c" = "\"a\\\"b\\\\c\""
    ∧ strconvQuote printTable "\x07\x08\x0c\n\r\t\x0b\x00\x1f\x7f"
        = "\"\\a\\b\\f\\n\\r\\t\\v\\x00\\x1f\\x7f\""
    ∧ strconvQuote printTable "\u00e9\u00ff\u00a0\u00ad\u0085"
        = "\"\u00e9\u00ff\\u00a0\\u00ad\\u0085\""
    ∧ strconvQuote (fun r => r == 0x20AC || r == 0x1F600)
          (String.mk ['\u20ac', '\u200b', Char.ofNat 0x1F600, Char.ofNat 0x10FFFF])
        = "\"\u20ac\\u200b" ++ String.mk [Char.ofNat 0x1F600] ++ "\\U0010ffff\""
    ∧ addSSHKeysSection printTable "#cloud-config\n" ["ssh-rsa AAAA user@host", "a\"b\\c\n"] =
        ("#cloud-config\n\nssh_authorized_keys:\n" ++
          "- \"ssh-rsa AAAA user@host\"\n" ++
          "- \"a\\\"b\\\\c\\n\"\n", none) := by
  have hc : stringsContains userdata "ssh_authorized_keys:" = false := by
    rw [Bool.eq_false_iff]
    exact fun h => hfree ((stringsContains_iff _ _).1 h)
  have hlen : ¬ sshKeys.length = 0 := by
    simpa [List.length_eq_zero] using hkeys
  have hres : addSSHKeysSection printTable userdata sshKeys =
      (userdata ++ "\nssh_authorized_keys:\n" ++
        String.join (sshKeys.map (fun key => "- " ++ strconvQuote printTable key ++ "\n")),
        none) := by
    simp only [addSSHKeysSection, hlen, hc, if_false, Bool.false_eq_true]
    rw [foldl_append_eq_join (fun key => "- " ++ strconvQuote printTable key ++ "\n")]
  refine ⟨hres, ?_, strconvQuote_printable printTable, ?_, ?_, ?_, ?_, ?_, ?_⟩
  · rw [hres, stringsHasPrefix_iff]
    exact ⟨_, String.append_assoc _ _ _⟩
  · rfl
  · rfl
  · rfl
  · rfl
  · decide
  · rfl

set_option maxRecDepth 100000 in
/-- Witness for C3: a cloud-config without the section, a key with a quote, a
backslash and a line break and a key outside the print table; the text is
evaluated. -/
theorem addSSHKeysSection_appends_section_witness :
    addSSHKeysSection (fun _ => false) "#cloud-config\n" ["a\"b\\c\n", "\u20ac"] =
      ("#cloud-config\n\nssh_authorized_keys:\n- \"a\\\"b\\\\c\\n\"\n- \"\\u20ac\"\n", none) :=
  Eq.trans
    (addSSHKeysSection_appends_section (fun _ => false) "#cloud-config\n" ["a\"b\\c\n", "\u20ac"]
      (fun h => absurd ((stringsContains_iff _ _).2 h) (by decide)) (by decide)).1
    (by decide)

/-- C10: with no key `addSSHKeysSection` returns the user data unchanged and no
error, also when the user data contains `ssh_authorized_keys:`; it returns an
error exactly when the key list is not empty and the user data contains that
text. -/
theorem addSSHKeysSection_fails_iff (printTable : Nat → Bool) (userdata : String) :
    addSSHKeysSection printTable userdata [] = (userdata, none)
    ∧ (∀ pre post : String,
        addSSHKeysSection printTable (pre ++ "ssh_authorized_keys:" ++ post) [] =
          (pre ++ "ssh_authorized_keys:" ++ post, none))
    ∧ (∀ sshKeys : List String,
        (addSSHKeysSection printTable userdata sshKeys).2 ≠ none ↔
          sshKeys ≠ [] ∧ ∃ pre post : String, userdata = pre ++ "ssh_authorized_keys:" ++ post) := by
  refine ⟨rfl, fun _ _ => rfl, ?_⟩
  intro sshKeys
  rw [← stringsContains_iff]
  cases sshKeys with
  | nil => simp [addSSHKeysSection]
  | cons key rest =>
    cases hc : stringsContains userdata "ssh_authorized_keys:" <;>
      simp [addSSHKeysSection, hc]

set_option maxRecDepth 100000 in
/-- C4: for user data that begins with `#!/`, `prepareUserData` returns no
error and the cloud-init document of `packageInCloudInit` (fixed text around
the base64 encoding of the whole user data) followed by what
`addSSHKeysSection` appends for the keys (nothing for no key), whatever the
script contains; for other user data it is `addSSHKeysSection` on the user
data as it is.  The encoding is fixed by the outputs of the standard base64
encoding: the RFC 4648 test vectors, texts of two, three and four byte UTF-8
characters, a text that uses the last two letters of the alphabet; the bytes
of an ASCII text are its character codes; and the document of a script and a
whole run on a script that contains `ssh_authorized_keys:` are evaluated. -/
theorem prepareUserData_wraps_shell_script (printTable : Nat → Bool)
    (userdata : String) (sshKeys : List String) :
    ((∃ rest : String, userdata = "#!/" ++ rest) →
      prepareUserData printTable userdata sshKeys =
        (packageInCloudInit userdata ++
          (if sshKeys = [] then ""
           else "\nssh_authorized_keys:\n" ++
            String.join (sshKeys.map (fun key => "- " ++ strconvQuote printTable key ++ "\n"))),
          none)
      ∧ prepareUserData printTable userdata sshKeys =
          addSSHKeysSection printTable (packageInCloudInit userdata) sshKeys)
    ∧ packageInCloudInit userdata =
        ("#cloud-config\n" ++
          "\n" ++
          "write_files:\n" ++
          "- encoding: b64\n" ++
          "  content: ") ++ base64EncodeToString userdata ++
        ("\n" ++
          "  owner: root:root\n" ++
          "  path: /root/cloud-init-script\n" ++
          "  permissions: '0555'\n" ++
          "\n" ++
          "runcmd:\n" ++
          "- /root/cloud-init-script\n" ++
          "- rm /root/cloud-init-script\n")
    ∧ ((¬ ∃ rest : String, userdata = "#!/" ++ rest) →
      prepareUserData printTable userdata sshKeys =
        addSSHKeysSection printTable userdata sshKeys)
    ∧ (base64EncodeToString "" = ""
      ∧ base64EncodeToString "f" = "Zg=="
      ∧ base64EncodeToString "fo" = "Zm8="
      ∧ base64EncodeToString "foo" = "Zm9v"
      ∧ base64EncodeToString "foob" = "Zm9vYg=="
      ∧ base64EncodeToString "fooba" = "Zm9vYmE="
      ∧ base64EncodeToString "foobar" = "Zm9vYmFy"
      ∧ base64EncodeToString "???" = "Pz8/"
      ∧ base64EncodeToString "h\u00e9llo\u20ac" = "aMOpbGxv4oKs"
      ∧ base64EncodeToString (String.mk [Char.ofNat 0x1F600]) = "8J+YgA==")
    ∧ (∀ text : String, (∀ c ∈ text.data, c.toNat < 128) →
        stringBytes text = text.data.map Char.toNat)
    ∧ stringBytes ("h\u00e9llo\u20ac" ++ String.mk [Char.ofNat 0x1F600])
        = [104, 195, 169, 108, 108, 111, 226, 130, 172, 240, 159, 152, 128]
    ∧ packageInCloudInit "#!/bin/bash\necho hi" =
        "#cloud-config\n" ++
        "\n" ++
        "write_files:\n" ++
        "- encoding: b64\n" ++
        "  content: IyEvYmluL2Jhc2gKZWNobyBoaQ==\n" ++
        "  owner: root:root\n" ++
        "  path: /root/cloud-init-script\n" ++
        "  permissions: '0555'\n" ++
        "\n" ++
        "runcmd:\n" ++
        "- /root/cloud-init-script\n" ++
        "- rm /root/cloud-init-script\n"
    ∧ prepareUserData printTable "#!/bin/sh\necho ssh_authorized_keys: >> /tmp/x\n"
          ["ssh1", "a\"b"] =
        ("#cloud-config\n" ++
          "\n" ++
          "write_files:\n" ++
          "- encoding: b64\n" ++
          "  content: IyEvYmluL3NoCmVjaG8gc3NoX2F1dGhvcml6ZWRfa2V5czogPj4gL3RtcC94Cg==\n" ++
          "  owner: root:root\n" ++
          "  path: /root/cloud-init-script\n" ++
          "  permissions: '0555'\n" ++
          "\n" ++
          "runcmd:\n" ++
          "- /root/cloud-init-script\n" ++
          "- rm /root/cloud-init-script\n" ++
          "\n" ++
          "ssh_authorized_keys:\n" ++
          "- \"ssh1\"\n" ++
          "- \"a\\\"b\"\n", none) := by
  refine ⟨?_, rfl, ?_, ?_, stringBytes_ascii, ?_, ?_, ?_⟩
  · intro hpre
    have hp : stringsHasPrefix userdata "#!/" = true := (stringsHasPrefix_iff _ _).2 hpre
    have hprep : prepareUserData printTable userdata sshKeys =
        addSSHKeysSection printTable (packageInCloudInit userdata) sshKeys := by
      simp only [prepareUserData, hp, if_true]
    refine ⟨?_, hprep⟩
    rw [hprep]
    cases sshKeys with
    | nil => simp [addSSHKeysSection, String.append_empty]
    | cons key rest =>
      have hc := packageInCloudInit_no_section userdata
      simp only [addSSHKeysSection, hc, List.length_cons, Nat.add_one_ne_zero, if_false,
        Bool.false_eq_true, reduceCtorEq]
      rw [foldl_append_eq_join (fun key => "- " ++ strconvQuote printTable key ++ "\n")]
      simp only [String.append_assoc]
  · intro hpre
    have hp : stringsHasPrefix userdata "#!/" = false := by
      rw [Bool.eq_false_iff]
      exact fun h => hpre ((stringsHasPrefix_iff _ _).1 h)
    simp only [prepareUserData, hp, if_false, Bool.false_eq_true]
  · refine ⟨?_, ?_, ?_, ?_, ?_, ?_, ?_, ?_, ?_, ?_⟩ <;> decide
  · decide
  · decide
  · rfl

set_option maxRecDepth 100000 in
/-- Witness for C4: a shell script whose text contains `ssh_authorized_keys:`
is wrapped, encoded and followed by the section, without an error; the text
is evaluated. -/
theorem prepareUserData_wraps_shell_script_witness :
    prepareUserData (fun _ => false) "#!/bin/sh\necho ssh_authorized_keys: >> /tmp/x\n" ["ssh1"] =
      ("#cloud-config\n" ++
        "\n" ++
        "write_files:\n" ++
        "- encoding: b64\n" ++
        "  content: IyEvYmluL3NoCmVjaG8gc3NoX2F1dGhvcml6ZWRfa2V5czogPj4gL3RtcC94Cg==\n" ++
        "  owner: root:root\n" ++
        "  path: /root/cloud-init-script\n" ++
        "  permissions: '0555'\n" ++
        "\n" ++
        "runcmd:\n" ++
        "- /root/cloud-init-script\n" ++
        "- rm /root/cloud-init-script\n" ++
        "\n" ++
        "ssh_authorized_keys:\n" ++
        "- \"ssh1\"\n", none) :=
  Eq.trans
    ((prepareUserData_wraps_shell_script (fun _ => false)
      "#!/bin/sh\necho ssh_authorized_keys: >> /tmp/x\n" ["ssh1"]).1
        ⟨"bin/sh\necho ssh_authorized_keys: >> /tmp/x\n", by decide⟩).1
    (by decide)

/-! ## Theorems: `delete.go` -/

/-- C5: `findByIPath` and `findByUUID` classify the outcome of the search: a
found machine is returned as it is; a `NotFoundError` becomes a
`MachineNotFoundError` carrying the machine name (inventory path lookup) or the
machine ID (UUID lookup); any other error is wrapped with a text naming the
lookup and is never a `MachineNotFoundError`. -/
theorem find_classifies_search_outcome {σ : Type} (r : Remote σ) (printTable : Nat → Bool)
    (spec : VsphereProviderSpec1) (machineName machineID : String) (w : World σ) :
    (∀ vm, (r.search spec (.inventoryPath (ipath spec machineName)) w.state).1 = .ok vm →
      (findByIPath r printTable spec machineName w).1 = .ok vm)
    ∧ (∀ msg, (r.search spec (.inventoryPath (ipath spec machineName)) w.state).1
          = .error (.notFound msg) →
      (findByIPath r printTable spec machineName w).1
          = .error (.machineNotFound machineName ""))
    ∧ (∀ err, (r.search spec (.inventoryPath (ipath spec machineName)) w.state).1 = .error err →
        (∀ msg, err ≠ .notFound msg) →
      (findByIPath r printTable spec machineName w).1
          = .error (.wrap err ("find by inventory path " ++
              strconvQuote printTable (ipath spec machineName) ++ " failed"))
        ∧ ∀ name id, (findByIPath r printTable spec machineName w).1
            ≠ .error (.machineNotFound name id))
    ∧ (∀ vm, (r.search spec (.uuid machineID) w.state).1 = .ok vm →
      (findByUUID r spec machineID w).1 = .ok vm)
    ∧ (∀ msg, (r.search spec (.uuid machineID) w.state).1 = .error (.notFound msg) →
      (findByUUID r spec machineID w).1 = .error (.machineNotFound "" machineID))
    ∧ (∀ err, (r.search spec (.uuid machineID) w.state).1 = .error err →
        (∀ msg, err ≠ .notFound msg) →
      (findByUUID r spec machineID w).1
          = .error (.wrap err ("find by uuid " ++ machineID ++ " failed"))
        ∧ ∀ name id, (findByUUID r spec machineID w).1 ≠ .error (.machineNotFound name id)) := by
  refine ⟨?_, ?_, ?_, ?_, ?_, ?_⟩
  · intro vm h
    simp only [findByIPath, callSearch, h]
  · intro msg h
    simp only [findByIPath, callSearch, h]
  · intro err h hne
    have hres : (findByIPath r printTable spec machineName w).1
        = .error (.wrap err ("find by inventory path " ++
            strconvQuote printTable (ipath spec machineName) ++ " failed")) := by
      cases err with
      | notFound msg => exact absurd rfl (hne msg)
      | machineNotFound n i => simp only [findByIPath, callSearch, h]
      | errorf msg => simp only [findByIPath, callSearch, h]
      | wrap cause msg => simp only [findByIPath, callSearch, h]
      | library msg => simp only [findByIPath, callSearch, h]
    refine ⟨hres, ?_⟩
    intro name id
    rw [hres]
    simp
  · intro vm h
    simp only [findByUUID, callSearch, h]
  · intro msg h
    simp only [findByUUID, callSearch, h]
  · intro err h hne
    have hres : (findByUUID r spec machineID w).1
        = .error (.wrap err ("find by uuid " ++ machineID ++ " failed")) := by
      cases err with
      | notFound msg => exact absurd rfl (hne msg)
      | machineNotFound n i => simp only [findByUUID, callSearch, h]
      | errorf msg => simp only [findByUUID, callSearch, h]
      | wrap cause msg => simp only [findByUUID, callSearch, h]
      | library msg => simp only [findByUUID, callSearch, h]
    refine ⟨hres, ?_⟩
    intro name id
    rw [hres]
    simp

/-- C7: `findVM` issues exactly one search, with the provider spec as its
context.  With a non-empty machine ID it is the UUID search for that ID, the
same whatever the machine name is, and the result is that of `findByUUID`;
with an empty machine ID it is the search for the inventory path
`/<Datacenter>/vm/<machineName>` (empty folder) or
`/<Datacenter>/vm/<Folder>/<machineName>`, and the result is that of
`findByIPath`. -/
theorem findVM_single_lookup {σ : Type} (r : Remote σ) (printTable : Nat → Bool)
    (spec : VsphereProviderSpec1) (machineName machineID : String) (w : World σ) :
    (findVM r printTable spec machineName machineID w).2.transcript =
        w.transcript ++
          [.search spec
            (if machineID ≠ "" then .uuid machineID
             else if spec.Folder = "" then
              .inventoryPath ("/" ++ spec.Datacenter ++ "/vm/" ++ machineName)
             else
              .inventoryPath
                ("/" ++ spec.Datacenter ++ "/vm/" ++ spec.Folder ++ "/" ++ machineName))
            (r.search spec
              (if machineID ≠ "" then .uuid machineID
               else if spec.Folder = "" then
                .inventoryPath ("/" ++ spec.Datacenter ++ "/vm/" ++ machineName)
               else
                .inventoryPath
                  ("/" ++ spec.Datacenter ++ "/vm/" ++ spec.Folder ++ "/" ++ machineName))
              w.state).1]
    ∧ findVM r printTable spec machineName machineID w =
        (if machineID ≠ "" then findByUUID r spec machineID w
         else findByIPath r printTable spec machineName w)
    ∧ (machineID ≠ "" → ∀ otherName : String,
        findVM r printTable spec otherName machineID w =
          findVM r printTable spec machineName machineID w) := by
  have hpath : ipath spec machineName =
      (if spec.Folder = "" then "/" ++ spec.Datacenter ++ "/vm/" ++ machineName
       else "/" ++ spec.Datacenter ++ "/vm/" ++ spec.Folder ++ "/" ++ machineName) := by
    unfold ipath
    by_cases hf : spec.Folder = ""
    · simp only [hf, ne_eq, not_true_eq_false, if_false, if_true]
      apply String.ext
      simp [String.data_append]
    · simp only [hf, ne_eq, not_false_eq_true, if_true, if_false]
      apply String.ext
      simp [String.data_append]
  refine ⟨?_, rfl, ?_⟩
  · unfold findVM
    by_cases hid : machineID = ""
    · simp only [hid, ne_eq, not_true_eq_false, if_false]
      have hby : (if spec.Folder = "" then
            SearchBy.inventoryPath ("/" ++ spec.Datacenter ++ "/vm/" ++ machineName)
          else SearchBy.inventoryPath
            ("/" ++ spec.Datacenter ++ "/vm/" ++ spec.Folder ++ "/" ++ machineName))
          = .inventoryPath (ipath spec machineName) := by
        rw [hpath]; split <;> rfl
      rw [hby]
      unfold findByIPath
      obtain ⟨res, st, h⟩ := callSearch_eq r spec (.inventoryPath (ipath spec machineName)) w
      have h1 : (r.search spec (.inventoryPath (ipath spec machineName)) w.state).1 = res := by
        have := congrArg Prod.fst h
        simpa [callSearch] using this
      rw [h, h1]
      cases res with
      | ok vm => rfl
      | error e => cases e <;> rfl
    · simp only [hid, ne_eq, not_false_eq_true, if_true]
      unfold findByUUID
      obtain ⟨res, st, h⟩ := callSearch_eq r spec (.uuid machineID) w
      have h1 : (r.search spec (.uuid machineID) w.state).1 = res := by
        have := congrArg Prod.fst h
        simpa [callSearch] using this
      rw [h, h1]
      cases res with
      | ok vm => rfl
      | error e => cases e <;> rfl
  · intro hid otherName
    simp only [findVM, hid, ne_eq, not_false_eq_true, if_true]

/-- C6: every run of `deleteVM` appends to the transcript one of these call
sequences, each call issued once and a failed call always the last one:
search failed; search, power state failed; search, power state `poweredOn`,
PowerOff failed to start; the same with PowerOff started and its wait failed;
or search, power state, (for `poweredOn` only: PowerOff started and waited for
with success), UUID read, and then Destroy failed to start, or its wait failed,
or both succeeded.  The result is the empty ID with an error in every case but
the last, where it is the UUID read from the machine and no error.  A run of
`shutDownVM` from the same world issues the same calls up to and including the
UUID read, never Destroy, and the run of `deleteVM` continues it. -/
theorem deleteVM_call_sequence {σ : Type} (r : Remote σ) (printTable : Nat → Bool)
    (spec : VsphereProviderSpec1) (machineName machineID : String) (w : World σ) :
    (∃ evs, (deleteVM r printTable spec machineName machineID w).2.transcript
          = w.transcript ++ evs ∧
      ((∃ by_ e err, evs = [.search spec by_ (.error e)]
          ∧ (deleteVM r printTable spec machineName machineID w).1 = ("", some err))
      ∨ (∃ by_ vm e, evs = [.search spec by_ (.ok vm), .powerState vm (.error e)]
          ∧ (deleteVM r printTable spec machineName machineID w).1
              = ("", some (.wrap e "PowerState failed")))
      ∨ (∃ by_ vm e, evs = [.search spec by_ (.ok vm), .powerState vm (.ok .poweredOn),
            .powerOff vm (.error e)]
          ∧ (deleteVM r printTable spec machineName machineID w).1
              = ("", some (.wrap e "starting PowerOff failed")))
      ∨ (∃ by_ vm task e, evs = [.search spec by_ (.ok vm), .powerState vm (.ok .poweredOn),
            .powerOff vm (.ok task), .waitForResult task (some e)]
          ∧ (deleteVM r printTable spec machineName machineID w).1
              = ("", some (.wrap e "PowerOff failed")))
      ∨ (∃ by_ vm ps off id last,
          ((ps = .poweredOn ∧ ∃ task, off = [.powerOff vm (.ok task), .waitForResult task none])
            ∨ (ps ≠ .poweredOn ∧ off = []))
          ∧ evs = [.search spec by_ (.ok vm), .powerState vm (.ok ps)] ++ off ++ [.uuid vm id] ++ last
          ∧ ((∃ e, last = [.destroy vm (.error e)]
                ∧ (deleteVM r printTable spec machineName machineID w).1
                    = ("", some (.wrap e "starting Destroy failed")))
            ∨ (∃ task e, last = [.destroy vm (.ok task), .waitForResult task (some e)]
                ∧ (deleteVM r printTable spec machineName machineID w).1
                    = ("", some (.wrap e "Destroy failed")))
            ∨ (∃ task, last = [.destroy vm (.ok task), .waitForResult task none]
                ∧ (deleteVM r printTable spec machineName machineID w).1 = (id, none))))))
    ∧ (∃ evs, (shutDownVM r printTable spec machineName machineID w).2.transcript
          = w.transcript ++ evs ∧
      (∀ vm res, Event.destroy vm res ∉ evs) ∧
      ((∃ by_ e err, evs = [.search spec by_ (.error e)]
          ∧ (shutDownVM r printTable spec machineName machineID w).1 = ("", some err))
      ∨ (∃ by_ vm e, evs = [.search spec by_ (.ok vm), .powerState vm (.error e)]
          ∧ (shutDownVM r printTable spec machineName machineID w).1
              = ("", some (.wrap e "PowerState failed")))
      ∨ (∃ by_ vm e, evs = [.search spec by_ (.ok vm), .powerState vm (.ok .poweredOn),
            .powerOff vm (.error e)]
          ∧ (shutDownVM r printTable spec machineName machineID w).1
              = ("", some (.wrap e "starting PowerOff failed")))
      ∨ (∃ by_ vm task e, evs = [.search spec by_ (.ok vm), .powerState vm (.ok .poweredOn),
            .powerOff vm (.ok task), .waitForResult task (some e)]
          ∧ (shutDownVM r printTable spec machineName machineID w).1
              = ("", some (.wrap e "PowerOff failed")))
      ∨ (∃ by_ vm ps off id,
          ((ps = .poweredOn ∧ ∃ task, off = [.powerOff vm (.ok task), .waitForResult task none])
            ∨ (ps ≠ .poweredOn ∧ off = []))
          ∧ evs = [.search spec by_ (.ok vm), .powerState vm (.ok ps)] ++ off ++ [.uuid vm id]
          ∧ (shutDownVM r printTable spec machineName machineID w).1 = (id, none))))
    ∧ (∃ last, (deleteVM r printTable spec machineName machineID w).2.transcript
          = (shutDownVM r printTable spec machineName machineID w).2.transcript ++ last) := by
  obtain ⟨evs, st, res, hrun, hshape⟩ :=
    doShutdown_run r printTable spec machineName machineID w
  -- the runs after a successful `doShutdown`
  have hok : ∀ vm, res = .ok vm →
      (∃ id last, (shutDownVM r printTable spec machineName machineID w).2.transcript
            = w.transcript ++ (evs ++ [.uuid vm id])
          ∧ (shutDownVM r printTable spec machineName machineID w).1 = (id, none)
          ∧ (deleteVM r printTable spec machineName machineID w).2.transcript
            = w.transcript ++ (evs ++ [.uuid vm id] ++ last)
          ∧ ((∃ e, last = [.destroy vm (.error e)]
                ∧ (deleteVM r printTable spec machineName machineID w).1
                    = ("", some (.wrap e "starting Destroy failed")))
            ∨ (∃ task e, last = [.destroy vm (.ok task), .waitForResult task (some e)]
                ∧ (deleteVM r printTable spec machineName machineID w).1
                    = ("", some (.wrap e "Destroy failed")))
            ∨ (∃ task, last = [.destroy vm (.ok task), .waitForResult task none]
                ∧ (deleteVM r printTable spec machineName machineID w).1 = (id, none)))) := by
    intro vm hres
    subst hres
    obtain ⟨id, st1, hid⟩ := callUUID_eq r vm ⟨st, w.transcript ++ evs⟩
    obtain ⟨des, st2, hdes⟩ := callDestroy_eq r vm ⟨st1, w.transcript ++ evs ++ [.uuid vm id]⟩
    simp only [List.append_assoc, List.singleton_append, List.cons_append, List.nil_append] at hid hdes
    cases des with
    | error e =>
      refine ⟨id, [.destroy vm (.error e)], ?_, ?_, ?_, Or.inl ⟨e, rfl, ?_⟩⟩ <;>
        simp only [shutDownVM, deleteVM, hrun, hid, hdes, List.append_assoc, List.singleton_append, List.cons_append, List.nil_append]
    | ok task =>
      obtain ⟨wt, st3, hwt⟩ := callWaitForResult_eq r task
        ⟨st2, w.transcript ++ evs ++ [.uuid vm id] ++ [.destroy vm (.ok task)]⟩
      simp only [List.append_assoc, List.singleton_append, List.cons_append, List.nil_append] at hwt
      cases wt with
      | some e =>
        refine ⟨id, [.destroy vm (.ok task), .waitForResult task (some e)], ?_, ?_, ?_,
          Or.inr (Or.inl ⟨task, e, rfl, ?_⟩)⟩ <;>
          simp only [shutDownVM, deleteVM, hrun, hid, hdes, hwt,
            List.append_assoc, List.singleton_append, List.cons_append, List.nil_append]
      | none =>
        refine ⟨id, [.destroy vm (.ok task), .waitForResult task none], ?_, ?_, ?_,
          Or.inr (Or.inr ⟨task, rfl, ?_⟩)⟩ <;>
          simp only [shutDownVM, deleteVM, hrun, hid, hdes, hwt,
            List.append_assoc, List.singleton_append, List.cons_append, List.nil_append]
  -- the runs after a failed `doShutdown`
  have herr : ∀ err, res = .error err →
      (shutDownVM r printTable spec machineName machineID w).2.transcript = w.transcript ++ evs
      ∧ (shutDownVM r printTable spec machineName machineID w).1 = ("", some err)
      ∧ (deleteVM r printTable spec machineName machineID w).2.transcript = w.transcript ++ evs
      ∧ (deleteVM r printTable spec machineName machineID w).1 = ("", some err) := by
    intro err hres
    subst hres
    refine ⟨?_, ?_, ?_, ?_⟩ <;> simp only [shutDownVM, deleteVM, hrun]
  rcases hshape with ⟨by_, e, err, hevs, hres⟩ | ⟨by_, vm, e, hevs, hres⟩ |
    ⟨by_, vm, e, hevs, hres⟩ | ⟨by_, vm, task, e, hevs, hres⟩ |
    ⟨by_, vm, task, hevs, hres⟩ | ⟨by_, vm, ps, hps, hevs, hres⟩
  · obtain ⟨hs1, hs2, hd1, hd2⟩ := herr _ hres
    refine ⟨⟨evs, hd1, Or.inl ⟨by_, e, err, hevs, hd2⟩⟩,
      ⟨evs, hs1, ?_, Or.inl ⟨by_, e, err, hevs, hs2⟩⟩, ⟨[], ?_⟩⟩
    · subst hevs; simp
    · rw [hs1, hd1, List.append_nil]
  · obtain ⟨hs1, hs2, hd1, hd2⟩ := herr _ hres
    refine ⟨⟨evs, hd1, Or.inr (Or.inl ⟨by_, vm, e, hevs, hd2⟩)⟩,
      ⟨evs, hs1, ?_, Or.inr (Or.inl ⟨by_, vm, e, hevs, hs2⟩)⟩, ⟨[], ?_⟩⟩
    · subst hevs; simp
    · rw [hs1, hd1, List.append_nil]
  · obtain ⟨hs1, hs2, hd1, hd2⟩ := herr _ hres
    refine ⟨⟨evs, hd1, Or.inr (Or.inr (Or.inl ⟨by_, vm, e, hevs, hd2⟩))⟩,
      ⟨evs, hs1, ?_, Or.inr (Or.inr (Or.inl ⟨by_, vm, e, hevs, hs2⟩))⟩, ⟨[], ?_⟩⟩
    · subst hevs; simp
    · rw [hs1, hd1, List.append_nil]
  · obtain ⟨hs1, hs2, hd1, hd2⟩ := herr _ hres
    refine ⟨⟨evs, hd1, Or.inr (Or.inr (Or.inr (Or.inl ⟨by_, vm, task, e, hevs, hd2⟩)))⟩,
      ⟨evs, hs1, ?_, Or.inr (Or.inr (Or.inr (Or.inl ⟨by_, vm, task, e, hevs, hs2⟩)))⟩,
      ⟨[], ?_⟩⟩
    · subst hevs; simp
    · rw [hs1, hd1, List.append_nil]
  · obtain ⟨id, last, hs1, hs2, hd1, hd2⟩ := hok vm hres
    refine ⟨⟨_, hd1, Or.inr (Or.inr (Or.inr (Or.inr
        ⟨by_, vm, .poweredOn, _, id, last, Or.inl ⟨rfl, task, rfl⟩, ?_, hd2⟩)))⟩,
      ⟨_, hs1, ?_, Or.inr (Or.inr (Or.inr (Or.inr
        ⟨by_, vm, .poweredOn, _, id, Or.inl ⟨rfl, task, rfl⟩, ?_, hs2⟩)))⟩, ⟨last, ?_⟩⟩
    · subst hevs; simp
    · subst hevs; simp
    · subst hevs; simp
    · rw [hs1, hd1]; simp
  · obtain ⟨id, last, hs1, hs2, hd1, hd2⟩ := hok vm hres
    refine ⟨⟨_, hd1, Or.inr (Or.inr (Or.inr (Or.inr
        ⟨by_, vm, ps, [], id, last, Or.inr ⟨hps, rfl⟩, ?_, hd2⟩)))⟩,
      ⟨_, hs1, ?_, Or.inr (Or.inr (Or.inr (Or.inr
        ⟨by_, vm, ps, [], id, Or.inr ⟨hps, rfl⟩, ?_, hs2⟩)))⟩, ⟨last, ?_⟩⟩
    · subst hevs; simp
    · subst hevs; simp
    · subst hevs; simp
    · rw [hs1, hd1]; simp


/-! ## Theorems: `flags/network.go` -/

/-- C8: for the list of networks that the finder returns for the name,
`findNetwork` returns the only element of a one-element list whatever the
switch UUID; for any other length it fails when the flag has no switch UUID;
with a switch UUID it returns the first network whose backing is a distributed
virtual port backing on that switch, and fails when no network is one or when
reading a backing fails before such a network is reached. -/
theorem findNetwork_selection (flag : NetworkFlag)
    (networkList : String → Except GoError (List NetworkReference)) (name : String)
    (networks : List NetworkReference) (hlist : networkList name = .ok networks) :
    (∀ network, networks = [network] →
      flag.findNetwork (.ok networkList) name = .ok network)
    ∧ (networks.length ≠ 1 → flag.switchUUID = "" →
      ∃ msg, flag.findNetwork (.ok networkList) name = .error (.errorf msg))
    ∧ (networks.length ≠ 1 → flag.switchUUID ≠ "" →
      (∀ pre network post, networks = pre ++ network :: post →
        (∀ m ∈ pre, ∃ info, m.ethernetCardBackingInfo = .ok info ∧
          ∀ key, info ≠ .distributedVirtualPort flag.switchUUID key) →
        (∃ key, network.ethernetCardBackingInfo
          = .ok (.distributedVirtualPort flag.switchUUID key)) →
        flag.findNetwork (.ok networkList) name = .ok network)
      ∧ ((∀ m ∈ networks, ∃ info, m.ethernetCardBackingInfo = .ok info ∧
          ∀ key, info ≠ .distributedVirtualPort flag.switchUUID key) →
        ∃ msg, flag.findNetwork (.ok networkList) name = .error (.errorf msg))
      ∧ (∀ pre network post err, networks = pre ++ network :: post →
        (∀ m ∈ pre, ∃ info, m.ethernetCardBackingInfo = .ok info ∧
          ∀ key, info ≠ .distributedVirtualPort flag.switchUUID key) →
        network.ethernetCardBackingInfo = .error err →
        flag.findNetwork (.ok networkList) name = .error err)) := by
  have hmany : networks.length ≠ 1 →
      flag.findNetwork (.ok networkList) name =
        (if flag.switchUUID = "" then
          .error (.errorf ("path '" ++ name ++
            "' resolves to multiple networks. Need switchUuid to select correct network"))
        else selectBySwitchUUID flag.switchUUID name networks []) := by
    intro hlen
    unfold NetworkFlag.findNetwork
    simp only [hlist]
    split
    · exact absurd rfl hlen
    · rfl
  refine ⟨?_, ?_, ?_⟩
  · intro network hnet
    subst hnet
    simp only [NetworkFlag.findNetwork, hlist]
  · intro hlen hsw
    rw [hmany hlen, if_pos hsw]
    exact ⟨_, rfl⟩
  · intro hlen hsw
    rw [hmany hlen, if_neg hsw]
    refine ⟨?_, ?_, ?_⟩
    · intro pre network post hsplit hpre hmatch
      rw [hsplit]
      exact selectBySwitchUUID_match _ _ pre network post [] hpre hmatch
    · intro hall
      exact selectBySwitchUUID_no_match _ _ networks [] hall
    · intro pre network post err hsplit hpre herr
      rw [hsplit]
      exact selectBySwitchUUID_backing_error _ _ pre network post [] err hpre herr

/-- Witness for C8: a single network on switch `uuid-1` is returned although
the flag asks for switch `uuid-9`. -/
theorem findNetwork_selection_witness :
    (⟨"net", "uuid-9", none, "", "", true⟩ : NetworkFlag).findNetwork
        (.ok (fun _ => .ok [⟨"dvportgroup-1", .ok (.distributedVirtualPort "uuid-1" "pg-1")⟩]))
        "net"
      = .ok ⟨"dvportgroup-1", .ok (.distributedVirtualPort "uuid-1" "pg-1")⟩ :=
  (findNetwork_selection ⟨"net", "uuid-9", none, "", "", true⟩
    (fun _ => .ok [⟨"dvportgroup-1", .ok (.distributedVirtualPort "uuid-1" "pg-1")⟩]) "net"
    [⟨"dvportgroup-1", .ok (.distributedVirtualPort "uuid-1" "pg-1")⟩] rfl).1 _ rfl

/-- C9: `Change` stores the backing of `update` in `device`, stores the MAC
address and the address type of `update` in `device` only when they are not
empty, and leaves every other field of `device`, the whole of `update` and
every other device as they were; this holds for any two pointers, equal or
not. -/
theorem change_frame (flag : NetworkFlag) (heap : Heap) (device update : Nat) :
    (flag.Change heap device update device) =
      { heap device with
        card :=
          { (heap device).card with
            Backing := (heap update).card.Backing
            MacAddress :=
              if (heap update).card.MacAddress ≠ "" then (heap update).card.MacAddress
              else (heap device).card.MacAddress
            AddressType :=
              if (heap update).card.AddressType ≠ "" then (heap update).card.AddressType
              else (heap device).card.AddressType } }
    ∧ flag.Change heap device update update = heap update
    ∧ ∀ other, other ≠ device → flag.Change heap device update other = heap other := by
  have hdev : (flag.Change heap device update device) =
      { heap device with
        card :=
          { (heap device).card with
            Backing := (heap update).card.Backing
            MacAddress :=
              if (heap update).card.MacAddress ≠ "" then (heap update).card.MacAddress
              else (heap device).card.MacAddress
            AddressType :=
              if (heap update).card.AddressType ≠ "" then (heap update).card.AddressType
              else (heap device).card.AddressType } } := by
    by_cases hsame : update = device
    · subst hsame
      by_cases hm : (heap update).card.MacAddress = "" <;>
        by_cases ha : (heap update).card.AddressType = "" <;>
        simp [NetworkFlag.Change, Heap.setCard, hm, ha]
    · by_cases hm : (heap update).card.MacAddress = "" <;>
        by_cases ha : (heap update).card.AddressType = "" <;>
        simp [NetworkFlag.Change, Heap.setCard, hm, ha, hsame]
  have hother : ∀ other, other ≠ device → flag.Change heap device update other = heap other := by
    intro other hne
    have hset : ∀ (h : Heap) (c : VirtualEthernetCard), h.setCard device c other = h other :=
      fun h c => by simp only [Heap.setCard, if_neg hne]
    simp only [NetworkFlag.Change]
    split_ifs <;> simp only [hset]
  refine ⟨hdev, ?_, hother⟩
  by_cases hsame : update = device
  · subst hsame
    rw [hdev]
    simp only [ite_self]
  · exact hother update hsame

end Vmomi
